import Mathlib

/-! # D1chat: the abuse-prevention gate of the chat relay

A shallow embedding of the request handlers of the repository's worker variants
(`src/V3/index.js`, `src/V7/index.js` and `src/V8/V8.1.0/index.js`) together with the
properties of the gate.

Modelling conventions:

* Counter and timestamp fields of a stored record hold JavaScript values.  The model keeps
  the values that arithmetic on such fields can produce or that JSON can hand back:
  a missing property (`undefined`), `null`, an integer number and `NaN`.  Numbers are
  mathematical integers (all the quantities of the program are far below `2^53`).
* A JSON object used as a map (the `users` property) is a function from keys to optional
  values: its own properties.  The lookup `data.users[user]` walks the prototype chain: a
  name that is not an own property may be a member of `Object.prototype` (`constructor`,
  `toString`, `__proto__`, ...), and the handlers then read and write the inherited object.
  The properties that requests set on these objects live as long as the isolate; they are
  the component `heap` of the state.  A property missing on a record is read from
  `Object.prototype`.  The key-value namespace is a function from keys to optional values.
* `Date.now()` is an explicit argument, a natural number of milliseconds.  A request reads
  the clock at several places; each reading is a field of `Clock`.
* A handler is a function from the state before the request to the response and the
  state after it.  An uncaught exception is the response `typeError`; the writes made
  before the exception stay in the state.
* The text of a response is kept as a constructor whose arguments are the values
  interpolated into the text.
-/

namespace D1chat

/-! ## JavaScript values of counter and timestamp fields -/

/-- A JavaScript value of a counter or timestamp field: a missing property, `null`,
an integer number or `NaN`. -/
inductive JSVal where
  | undefined
  | null
  | num (n : Int)
  | nan
  deriving DecidableEq, Repr

namespace JSVal

/-- ECMAScript `ToNumber`; `none` stands for `NaN`. -/
def toNumber : JSVal → Option Int
  | undefined => none
  | null => some 0
  | num n => some n
  | nan => none

/-- The operator `a - b`. -/
def sub (a b : JSVal) : JSVal :=
  match a.toNumber, b.toNumber with
  | some x, some y => num (x - y)
  | _, _ => nan

/-- The operator `a + b` on operands that are not strings. -/
def add (a b : JSVal) : JSVal :=
  match a.toNumber, b.toNumber with
  | some x, some y => num (x + y)
  | _, _ => nan

/-- The operator `a * b`. -/
def mul (a b : JSVal) : JSVal :=
  match a.toNumber, b.toNumber with
  | some x, some y => num (x * y)
  | _, _ => nan

/-- The function `Math.max(a, b)`. -/
def max (a b : JSVal) : JSVal :=
  match a.toNumber, b.toNumber with
  | some x, some y => num (Max.max x y)
  | _, _ => nan

/-- The comparison `a < b`; false as soon as one side is `NaN`. -/
def lt (a b : JSVal) : Bool :=
  match a.toNumber, b.toNumber with
  | some x, some y => decide (x < y)
  | _, _ => false

/-- The comparison `a > b`; false as soon as one side is `NaN`. -/
def gt (a b : JSVal) : Bool :=
  match a.toNumber, b.toNumber with
  | some x, some y => decide (x > y)
  | _, _ => false

/-- Truthiness: `undefined`, `null`, `0` and `NaN` are falsy. -/
def truthy : JSVal → Bool
  | num n => decide (n ≠ 0)
  | _ => false

/-- The operator `a || b`. -/
def or (a b : JSVal) : JSVal := if a.truthy then a else b

/-- The value read for a property of an object whose prototype chain ends in
`Object.prototype`: the own property when there is one, else the inherited one. -/
def orInherited (own inherited : JSVal) : JSVal :=
  match own with
  | undefined => inherited
  | v => v

/-- What `JSON.parse (JSON.stringify v)` gives back for a property value: `NaN` is
written as `null`, a missing property stays missing. -/
def json : JSVal → JSVal
  | nan => null
  | v => v

end JSVal

/-- Truthiness of a query parameter: `searchParams.get` returns `null` or a string, and
the empty string is falsy. -/
def paramPresent : Option String → Bool
  | some s => decide (s ≠ "")
  | none => false

/-! ## Variant V8.1.0 (`src/V8/V8.1.0/index.js`) -/

namespace V8

/-- One entry of `data.users`: the per-username sub-record. -/
structure UserData where
  count : JSVal
  lastMessageTime : JSVal
  suspendedUntil : JSVal
  joinTime : JSVal
  deriving DecidableEq, Repr

/-- The value stored under `data_<ip>`: the per-address record.  `users = none` is a
record without a `users` property. -/
structure Data where
  users : Option (String → Option UserData)
  count : JSVal
  lastMessageTime : JSVal
  suspendedUntil : JSVal

/-- Serialisation of a sub-record by `JSON.stringify`. -/
def UserData.json (u : UserData) : UserData :=
  { count := u.count.json, lastMessageTime := u.lastMessageTime.json,
    suspendedUntil := u.suspendedUntil.json, joinTime := u.joinTime.json }

/-- Serialisation of a record by `JSON.stringify`, as read back by `get(key, 'json')`. -/
def Data.json (d : Data) : Data :=
  { users := d.users.map (fun us k => (us k).map UserData.json),
    count := d.count.json, lastMessageTime := d.lastMessageTime.json,
    suspendedUntil := d.suspendedUntil.json }

/-- The namespace `env.CHAT_KV`: the value under `bannedIPs` (a JSON array whose elements
are strings or `null`) and the records under the other keys. -/
structure KV where
  bannedIPs : Option (List (Option String))
  data : String → Option Data

/-- The call `env.CHAT_KV.get(key, { type: 'json' })` on a record key. -/
def KV.get (kv : KV) (key : String) : Option Data := kv.data key

/-- The call `env.CHAT_KV.put(key, JSON.stringify(data))`. -/
def KV.put (kv : KV) (key : String) (d : Data) : KV :=
  { kv with data := fun k => if k = key then some d.json else kv.data k }

/-- The sub-record `users[user]` of the record stored under `key`, when both exist. -/
def KV.user (kv : KV) (key user : String) : Option UserData :=
  (kv.get key).bind fun d => d.users.bind fun us => us user

/-- A row of the table `messages`. -/
structure Row where
  user : String
  message : String
  timestamp : Nat
  deriving DecidableEq, Repr

/-- The four properties the handlers read and write on a sub-record, all missing. -/
def UserData.absent : UserData :=
  { count := .undefined, lastMessageTime := .undefined, suspendedUntil := .undefined,
    joinTime := .undefined }

/-- The names of the function-valued members of `Object.prototype`. -/
def functionNames : List String :=
  ["constructor", "__defineGetter__", "__defineSetter__", "hasOwnProperty",
   "__lookupGetter__", "__lookupSetter__", "isPrototypeOf", "propertyIsEnumerable",
   "toString", "valueOf", "toLocaleString"]

/-- The part of the isolate that the handlers can reach through a username: the properties
`count`, `lastMessageTime`, `suspendedUntil` and `joinTime` set on `Object.prototype` itself
and on each of its function-valued members (own properties of the function). -/
structure Heap where
  objectPrototype : UserData
  functions : String → UserData

/-- The heap of a new isolate: nothing has been set. -/
def Heap.fresh : Heap :=
  { objectPrototype := UserData.absent, functions := fun _ => UserData.absent }

/-- The state the worker acts on: the key-value namespace, the message table and the heap of
the isolate. -/
structure World where
  kv : KV
  db : List Row
  heap : Heap

/-- A GET request as the handler sees it: the address taken from the headers (`null` when
no header is set) and the query parameters `u` and `m`. -/
structure Request where
  ipAddress : Option String
  u : Option String
  m : Option String

/-- The readings of `Date.now()` during one request: in `checkIPRateLimit`, in the handler
and in `formatTimeUntil`. -/
structure Clock where
  pre : Nat
  now : Nat
  fmt : Nat

/-- A request during which every reading of the clock gives the same instant. -/
def Clock.single (t : Nat) : Clock := { pre := t, now := t, fmt := t }

/-- The text built by `formatTimeUntil`. -/
inductive TimeText where
  | now
  | hoursMinutes (hours minutes : Int)
  | minutesSeconds (minutes seconds : Int)
  | seconds (seconds : Int)
  | nanSeconds
  deriving DecidableEq, Repr

/-- The responses of the routes `/send` and `/join`. -/
inductive Response where
  /-- Status 403, "Your IP address is banned from sending messages" -/
  | banned
  /-- Status 429, "Rate limit exceeded for your IP address. Please check back in ..." -/
  | rateLimitExceeded (retry : TimeText)
  /-- Status 400, "Missing user or message" -/
  | missingUserOrMessage
  /-- Status 429, "You are suspended from sending messages for N minute(s). Please check back in ..." -/
  | suspended (minutes : JSVal) (retry : TimeText)
  /-- Status 200, "Message sent" -/
  | messageSent
  /-- Status 400, "Missing username" -/
  | missingUsername
  /-- Status 200, "[username] has joined the chat" -/
  | joined (username : String)
  /-- An uncaught `TypeError` (a property read on `undefined`). -/
  | typeError
  deriving DecidableEq, Repr

/-- The HTTP status of a response; the runtime answers an uncaught exception with 500. -/
def Response.status : Response → Nat
  | .banned => 403
  | .rateLimitExceeded _ => 429
  | .missingUserOrMessage => 400
  | .suspended _ _ => 429
  | .messageSent => 200
  | .missingUsername => 400
  | .joined _ => 200
  | .typeError => 500

/-- The key `data_${ip}`; a `null` address is interpolated as the text `null`. -/
def dataKey (ip : Option String) : String := "data_" ++ ip.getD "null"

/-- The function `isIPBanned`: an absent list is replaced by the empty array. -/
def isIPBanned (ip : Option String) (kv : KV) : Bool :=
  decide (ip ∈ kv.bannedIPs.getD [])

/-- The function `checkIPRateLimit`: returns whether the limit is exceeded, together with
the key-value namespace after its write.  A property missing on the stored record is read
from `Object.prototype`. -/
def checkIPRateLimit (ip : Option String) (kv : KV) (heap : Heap) (now : Nat) : Bool × KV :=
  let key := dataKey ip
  let data : Data := (kv.get key).getD
    { users := none, count := .num 0, lastMessageTime := .num 0, suspendedUntil := .undefined }
  let data : Data :=
    if ((JSVal.num now).sub
        (data.lastMessageTime.orInherited heap.objectPrototype.lastMessageTime)).gt
        (.num 15000) then
      { data with count := .num 0 }
    else data
  let data : Data :=
    { data with
      count := (data.count.orInherited heap.objectPrototype.count).add (.num 1),
      lastMessageTime := .num now }
  (data.count.gt (.num 5), kv.put key data)

/-- The function `getSuspensionTime`. -/
def getSuspensionTime (ip : Option String) (kv : KV) (heap : Heap) : JSVal :=
  match kv.get (dataKey ip) with
  | some data =>
    (data.suspendedUntil.orInherited heap.objectPrototype.suspendedUntil).or (.num 0)
  | none => (JSVal.num 0).or (.num 0)

/-- The constant `seconds` of `formatTimeUntil`: `Math.floor(timeRemaining / 1000) % 60`. -/
def secondsPart (timeRemaining : Int) : Int := (timeRemaining / 1000) % 60

/-- The constant `minutes` of `formatTimeUntil`:
`Math.floor(timeRemaining / (1000 * 60)) % 60`. -/
def minutesPart (timeRemaining : Int) : Int := (timeRemaining / (1000 * 60)) % 60

/-- The constant `hours` of `formatTimeUntil`:
`Math.floor(timeRemaining / (1000 * 60 * 60)) % 24`. -/
def hoursPart (timeRemaining : Int) : Int := (timeRemaining / (1000 * 60 * 60)) % 24

/-- The function `formatTimeUntil`, with its clock reading `now`. -/
def formatTimeUntil (timestamp : JSVal) (now : Nat) : TimeText :=
  match (timestamp.sub (.num now)).toNumber with
  | none => .nanSeconds
  | some timeRemaining =>
    if timeRemaining ≤ 0 then .now
    else
      let seconds := secondsPart timeRemaining
      let minutes := minutesPart timeRemaining
      let hours := hoursPart timeRemaining
      if hours > 0 then .hoursMinutes hours minutes
      else if minutes > 0 then .minutesSeconds minutes seconds
      else .seconds seconds

/-- The fixed-window update of a counter in the handler (lines 41-46 and 48-53):
`if (now - lastMessageTime < 15000) count += 1; else count = 1`. -/
def windowCount (now : Nat) (count lastMessageTime : JSVal) : JSVal :=
  if ((JSVal.num now).sub lastMessageTime).lt (.num 15000) then count.add (.num 1)
  else .num 1

/-- The constant `suspensionTime` of line 57:
`now + (15000 * Math.max(userData.count, data.count))`. -/
def suspensionTime (now : Nat) (userCount count : JSVal) : JSVal :=
  (JSVal.num now).add ((JSVal.num 15000).mul (userCount.max count))

/-- The assignment `data.users[user] = userData`. -/
def setUser (users : String → Option UserData) (user : String) (ud : UserData) :
    String → Option UserData :=
  fun k => if k = user then some ud else users k

/-- What the expression `data.users[user]` evaluates to. -/
inductive Found where
  /-- An own property of `data.users`: a sub-record. -/
  | own (ud : UserData)
  /-- A function-valued member of `Object.prototype`, found through the prototype chain. -/
  | function (name : String)
  /-- The object `Object.prototype` itself, returned by the getter of `__proto__`. -/
  | objectPrototype
  /-- A number (or `NaN`) that a request has set on `Object.prototype` under the name of
  one of the four properties. -/
  | primitive (v : JSVal)
  /-- No property: `undefined`. -/
  | missing
  deriving DecidableEq, Repr

/-- The lookup `data.users[user]`: the own property, else the member of `Object.prototype`
of that name. -/
def lookupUser (users : String → Option UserData) (heap : Heap) (user : String) : Found :=
  match users user with
  | some ud => .own ud
  | none =>
    if user = "__proto__" then .objectPrototype
    else if user ∈ functionNames then .function user
    else
      let inherited : JSVal :=
        if user = "count" then heap.objectPrototype.count
        else if user = "lastMessageTime" then heap.objectPrototype.lastMessageTime
        else if user = "suspendedUntil" then heap.objectPrototype.suspendedUntil
        else if user = "joinTime" then heap.objectPrototype.joinTime
        else .undefined
      match inherited with
      | .undefined => .missing
      | v => .primitive v

/-- Truthiness of `data.users[user]`: every object is truthy. -/
def Found.truthy : Found → Bool
  | .own _ => true
  | .function _ => true
  | .objectPrototype => true
  | .primitive v => v.truthy
  | .missing => false

/-- The object that `userData` denotes, when it is one: a sub-record of `data.users`, a
function of `Object.prototype`, or `Object.prototype`. -/
inductive Target where
  | own
  | function (name : String)
  | objectPrototype
  deriving DecidableEq, Repr

/-- The object found by the lookup; a number and `undefined` are not objects. -/
def Found.target : Found → Option Target
  | .own _ => some .own
  | .function name => some (.function name)
  | .objectPrototype => some .objectPrototype
  | .primitive _ => none
  | .missing => none

/-- The own properties of the object `userData`. -/
def readUser (users : String → Option UserData) (heap : Heap) (user : String) :
    Target → UserData
  | .own => (users user).getD UserData.absent
  | .function name => heap.functions name
  | .objectPrototype => heap.objectPrototype

/-- An assignment to properties of the object `userData`: on a sub-record it changes
`data.users`, on an inherited object it changes the heap. -/
def writeUser (users : String → Option UserData) (heap : Heap) (user : String)
    (ud : UserData) : Target → (String → Option UserData) × Heap
  | .own => (setUser users user ud, heap)
  | .function name =>
    (users, { heap with functions := fun k => if k = name then ud else heap.functions k })
  | .objectPrototype => (users, { heap with objectPrototype := ud })

/-- Lines 36-38: `if (!data.users[user]) data.users[user] = { count: 0, ... }`. -/
def ensureUser (users : String → Option UserData) (heap : Heap) (user : String) :
    String → Option UserData :=
  if (lookupUser users heap user).truthy then users
  else
    setUser users user
      { count := .num 0, lastMessageTime := .num 0, suspendedUntil := .num 0,
        joinTime := .undefined }

/-- Lines 40-71 of `fetch`, for the record `data` loaded at line 33 with its `users` map:
the update of the two counters, the test of the limit, the write and the insertion.  The
module is in strict mode: an assignment to a property of a number raises a `TypeError`. -/
def sendCounters (w : World) (kv1 : KV) (key : String) (data : Data)
    (users : String → Option UserData) (user message : String) (clk : Clock) :
    Response × World :=
  let now := clk.now
  let users := ensureUser users w.heap user
  match (lookupUser users w.heap user).target with
  | none => (.typeError, { w with kv := kv1 })
  | some target =>
    let userData := readUser users w.heap user target
    let userData : UserData :=
      { userData with
        count := windowCount now
          (userData.count.orInherited w.heap.objectPrototype.count)
          (userData.lastMessageTime.orInherited w.heap.objectPrototype.lastMessageTime),
        lastMessageTime := .num now }
    let (users, heap) := writeUser users w.heap user userData target
    let data : Data :=
      { data with
        count := windowCount now
          (data.count.orInherited heap.objectPrototype.count)
          (data.lastMessageTime.orInherited heap.objectPrototype.lastMessageTime),
        lastMessageTime := .num now }
    if userData.count.gt (.num 5) || data.count.gt (.num 5) then
      let suspensionTime := suspensionTime now userData.count data.count
      let userData : UserData := { userData with suspendedUntil := suspensionTime }
      let (users, heap) := writeUser users heap user userData target
      let data : Data := { data with suspendedUntil := suspensionTime, users := some users }
      (.suspended (userData.count.max data.count)
          (formatTimeUntil suspensionTime clk.fmt),
        { w with kv := kv1.put key data, heap := heap })
    else
      let data : Data := { data with users := some users }
      (.messageSent,
        { kv := kv1.put key data,
          db := w.db ++ [{ user := user, message := message, timestamp := now }],
          heap := heap })

/-- The branch `GET /send` of `fetch` (lines 11-71). -/
def fetchSend (w : World) (req : Request) (clk : Clock) : Response × World :=
  if isIPBanned req.ipAddress w.kv then (.banned, w)
  else
    let (rateLimitExceeded, kv1) := checkIPRateLimit req.ipAddress w.kv w.heap clk.pre
    if rateLimitExceeded then
      let suspensionTime := getSuspensionTime req.ipAddress kv1 w.heap
      (.rateLimitExceeded (formatTimeUntil suspensionTime clk.fmt), { w with kv := kv1 })
    else if !paramPresent req.u || !paramPresent req.m then
      (.missingUserOrMessage, { w with kv := kv1 })
    else
      let user := req.u.getD ""
      let message := req.m.getD ""
      let key := dataKey req.ipAddress
      let data : Data := (kv1.get key).getD
        { users := some (fun _ => none), count := .num 0, lastMessageTime := .num 0,
          suspendedUntil := .num 0 }
      match data.users with
      | none => (.typeError, { w with kv := kv1 })
      | some users => sendCounters w kv1 key data users user message clk

/-- The branch `GET /join` of `fetch` (lines 103-131): a missing `data.users[username]` is
created with `joinTime`, and on anything else that the lookup finds `joinTime` is
assigned. -/
def fetchJoin (w : World) (req : Request) (now : Nat) : Response × World :=
  if !paramPresent req.u then (.missingUsername, w)
  else
    let username := req.u.getD ""
    let key := dataKey req.ipAddress
    let data : Data := (w.kv.get key).getD
      { users := some (fun _ => none), count := .undefined, lastMessageTime := .undefined,
        suspendedUntil := .undefined }
    match data.users with
    | none => (.typeError, w)
    | some users =>
      let found := lookupUser users w.heap username
      let written : Option ((String → Option UserData) × Heap) :=
        if found.truthy then
          match found.target with
          | none => none
          | some target =>
            some (writeUser users w.heap username
              { readUser users w.heap username target with joinTime := .num now } target)
        else
          some (setUser users username { UserData.absent with joinTime := .num now }, w.heap)
      match written with
      | none => (.typeError, w)
      | some (users, heap) =>
        let data : Data := { data with users := some users }
        (.joined username,
          { kv := w.kv.put key data,
            db := w.db ++
              [{ user := "system", message := "[" ++ username ++ "] has joined the chat",
                 timestamp := now }],
            heap := heap })

/-- The empty namespace and the empty message table, in a new isolate. -/
def World.empty : World :=
  { kv := { bannedIPs := none, data := fun _ => none }, db := [], heap := Heap.fresh }

end V8

/-! ## Variant V7 (`src/V7/index.js`)

The records, the namespace, the requests and the responses of V7 are those of V8.1.0, and
its functions `isIPBanned`, `getSuspensionTime` and `formatTimeUntil` have the same text; the
window is 60000 ms, and `/join` has no `else` branch. -/

namespace V7

open V8

/-- The function `checkIPRateLimit` of V7: returns whether the limit is exceeded, together
with the key-value namespace after its write. -/
def checkIPRateLimit (ip : Option String) (kv : KV) (heap : Heap) (now : Nat) : Bool × KV :=
  let key := dataKey ip
  let data : Data := (kv.get key).getD
    { users := none, count := .num 0, lastMessageTime := .num 0, suspendedUntil := .undefined }
  let data : Data :=
    if ((JSVal.num now).sub
        (data.lastMessageTime.orInherited heap.objectPrototype.lastMessageTime)).gt
        (.num 60000) then
      { data with count := .num 0 }
    else data
  let data : Data :=
    { data with
      count := (data.count.orInherited heap.objectPrototype.count).add (.num 1),
      lastMessageTime := .num now }
  (data.count.gt (.num 5), kv.put key data)

/-- The fixed-window update of a counter in the handler of V7 (lines 41-46 and 48-53):
`if (now - lastMessageTime < 60000) count += 1; else count = 1`. -/
def windowCount (now : Nat) (count lastMessageTime : JSVal) : JSVal :=
  if ((JSVal.num now).sub lastMessageTime).lt (.num 60000) then count.add (.num 1)
  else .num 1

/-- The constant `suspensionTime` of line 57 of V7:
`now + (60000 * Math.max(userData.count, data.count))`. -/
def suspensionTime (now : Nat) (userCount count : JSVal) : JSVal :=
  (JSVal.num now).add ((JSVal.num 60000).mul (userCount.max count))

/-- Lines 40-71 of `fetch` in V7, for the record `data` loaded at line 33 with its `users`
map. -/
def sendCounters (w : World) (kv1 : KV) (key : String) (data : Data)
    (users : String → Option UserData) (user message : String) (clk : Clock) :
    Response × World :=
  let now := clk.now
  let users := ensureUser users w.heap user
  match (lookupUser users w.heap user).target with
  | none => (.typeError, { w with kv := kv1 })
  | some target =>
    let userData := readUser users w.heap user target
    let userData : UserData :=
      { userData with
        count := windowCount now
          (userData.count.orInherited w.heap.objectPrototype.count)
          (userData.lastMessageTime.orInherited w.heap.objectPrototype.lastMessageTime),
        lastMessageTime := .num now }
    let (users, heap) := writeUser users w.heap user userData target
    let data : Data :=
      { data with
        count := windowCount now
          (data.count.orInherited heap.objectPrototype.count)
          (data.lastMessageTime.orInherited heap.objectPrototype.lastMessageTime),
        lastMessageTime := .num now }
    if userData.count.gt (.num 5) || data.count.gt (.num 5) then
      let suspensionTime := suspensionTime now userData.count data.count
      let userData : UserData := { userData with suspendedUntil := suspensionTime }
      let (users, heap) := writeUser users heap user userData target
      let data : Data := { data with suspendedUntil := suspensionTime, users := some users }
      (.suspended (userData.count.max data.count)
          (formatTimeUntil suspensionTime clk.fmt),
        { w with kv := kv1.put key data, heap := heap })
    else
      let data : Data := { data with users := some users }
      (.messageSent,
        { kv := kv1.put key data,
          db := w.db ++ [{ user := user, message := message, timestamp := now }],
          heap := heap })

/-- The branch `GET /send` of `fetch` in V7 (lines 11-71). -/
def fetchSend (w : World) (req : Request) (clk : Clock) : Response × World :=
  if isIPBanned req.ipAddress w.kv then (.banned, w)
  else
    let (rateLimitExceeded, kv1) := checkIPRateLimit req.ipAddress w.kv w.heap clk.pre
    if rateLimitExceeded then
      let suspensionTime := getSuspensionTime req.ipAddress kv1 w.heap
      (.rateLimitExceeded (formatTimeUntil suspensionTime clk.fmt), { w with kv := kv1 })
    else if !paramPresent req.u || !paramPresent req.m then
      (.missingUserOrMessage, { w with kv := kv1 })
    else
      let user := req.u.getD ""
      let message := req.m.getD ""
      let key := dataKey req.ipAddress
      let data : Data := (kv1.get key).getD
        { users := some (fun _ => none), count := .num 0, lastMessageTime := .num 0,
          suspendedUntil := .num 0 }
      match data.users with
      | none => (.typeError, { w with kv := kv1 })
      | some users => sendCounters w kv1 key data users user message clk

/-- The branch `GET /join` of `fetch` in V7 (lines 103-131): the sub-record is created
when `data.users[username]` is falsy, and whatever else the lookup finds is left as it
is. -/
def fetchJoin (w : World) (req : Request) (now : Nat) : Response × World :=
  if !paramPresent req.u then (.missingUsername, w)
  else
    let username := req.u.getD ""
    let key := dataKey req.ipAddress
    let data : Data := (w.kv.get key).getD
      { users := some (fun _ => none), count := .undefined, lastMessageTime := .undefined,
        suspendedUntil := .undefined }
    match data.users with
    | none => (.typeError, w)
    | some users =>
      let users : String → Option UserData :=
        if (lookupUser users w.heap username).truthy then users
        else setUser users username { UserData.absent with joinTime := .num now }
      let data : Data := { data with users := some users }
      (.joined username,
        { w with
          kv := w.kv.put key data,
          db := w.db ++
            [{ user := "system", message := "[" ++ username ++ "] has joined the chat",
               timestamp := now }] })

end V7

/-! ## Variant V3 (`src/V3/index.js`) -/

namespace V3

/-- The value stored under `user_<name>`: the per-username record. -/
structure UserData where
  count : JSVal
  lastMessageTime : JSVal
  suspendedUntil : JSVal
  deriving DecidableEq, Repr

/-- Serialisation of a record by `JSON.stringify`, as read back by `get(key, 'json')`. -/
def UserData.json (u : UserData) : UserData :=
  { count := u.count.json, lastMessageTime := u.lastMessageTime.json,
    suspendedUntil := u.suspendedUntil.json }

/-- The namespace `env.CHAT_KV`, and the rows `(user, message)` of the table `messages`. -/
structure World where
  kv : String → Option UserData
  db : List (String × String)

/-- The call `env.CHAT_KV.put(key, JSON.stringify(userData))`. -/
def put (kv : String → Option UserData) (key : String) (d : UserData) :
    String → Option UserData :=
  fun k => if k = key then some d.json else kv k

/-- A GET request to `/send`: the query parameters `u` and `m`. -/
structure Request where
  u : Option String
  m : Option String

/-- The responses of the route `/send`. -/
inductive Response where
  /-- Status 400, "Missing user or message" -/
  | missingUserOrMessage
  /-- Status 429, "You are suspended from sending messages until ..." -/
  | suspendedUntil (time : JSVal)
  /-- Status 429, "You are suspended from sending messages for N minute(s)" -/
  | suspended (minutes : JSVal)
  /-- Status 200, "Message sent" -/
  | messageSent
  deriving DecidableEq, Repr

/-- The HTTP status of a response. -/
def Response.status : Response → Nat
  | .missingUserOrMessage => 400
  | .suspendedUntil _ => 429
  | .suspended _ => 429
  | .messageSent => 200

/-- The key `user_${user}`. -/
def userKey (user : String) : String := "user_" ++ user

/-- The branch `GET /send` of `fetch` (lines 5-46); `now` is the reading of `Date.now()`. -/
def fetchSend (w : World) (req : Request) (now : Nat) : Response × World :=
  if !paramPresent req.u || !paramPresent req.m then (.missingUserOrMessage, w)
  else
    let user := req.u.getD ""
    let message := req.m.getD ""
    let userData : UserData := (w.kv (userKey user)).getD
      { count := .num 0, lastMessageTime := .num 0, suspendedUntil := .num 0 }
    if userData.suspendedUntil.gt (.num now) then
      (.suspendedUntil userData.suspendedUntil, w)
    else
      let userData : UserData :=
        if ((JSVal.num now).sub userData.lastMessageTime).lt (.num 60000) then
          { userData with count := userData.count.add (.num 1) }
        else { userData with count := .num 1 }
      let userData : UserData := { userData with lastMessageTime := .num now }
      if userData.count.gt (.num 5) then
        let userData : UserData :=
          { userData with
            suspendedUntil := (JSVal.num now).add ((JSVal.num 60000).mul userData.count) }
        (.suspended userData.count, { w with kv := put w.kv (userKey user) userData })
      else
        (.messageSent,
          { kv := put w.kv (userKey user) userData, db := w.db ++ [(user, message)] })

/-- The empty namespace and the empty message table. -/
def World.empty : World := { kv := fun _ => none, db := [] }

/-- A record as `/send` leaves it: numeric fields, a count between 1 and 6, and the count 6
only together with the suspension that its violation has set, 360000 ms after
`lastMessageTime`. -/
def Counted (d : UserData) : Prop :=
  ∃ c l s : Int,
    d = { count := .num c, lastMessageTime := .num l, suspendedUntil := .num s } ∧
    1 ≤ c ∧ c ≤ 6 ∧ (c = 6 → s = l + 360000)

/-- Every stored record is `Counted`. -/
def World.Counted (w : World) : Prop := ∀ k d, w.kv k = some d → V3.Counted d

/-- The state after a sequence of `/send` requests, each with its reading of the clock,
handled one after the other. -/
def run (w : World) : List (Request × Nat) → World
  | [] => w
  | (req, now) :: rest => run (fetchSend w req now).2 rest

end V3

/-! ## Sample states and requests -/

namespace V3

/-- The scenario of the specification: the state after the first `n` requests of the
username `A`, sent at the instants 0, 10000, 20000, ... -/
def scenario : Nat → World
  | 0 => World.empty
  | n + 1 => (fetchSend (scenario n) { u := some "A", m := some "m" } (10000 * n)).2

end V3

namespace V3

/-- The twelve requests of the username `A` that lead to two violations: six from 0 to
50000, ten seconds apart, and six more from 410000, when the first suspension ends, to
460000. -/
def twoBursts : List (Request × Nat) :=
  [0, 10000, 20000, 30000, 40000, 50000, 410000, 420000, 430000, 440000, 450000, 460000].map
    fun t => ({ u := some "A", m := some "m" }, t)

end V3

namespace V7

/-- A request by `bob` from the address `203.0.113.7`. -/
def bobRequest : V8.Request :=
  { ipAddress := some "203.0.113.7", u := some "bob", m := some "hello" }

/-- A request by `alice` from the same address. -/
def aliceRequest : V8.Request :=
  { ipAddress := some "203.0.113.7", u := some "alice", m := some "hi" }

/-- The state after `bob` has joined at instant 0 and `alice`, who has not joined, has sent
a message at 1000 from the same address. -/
def sentBeforeJoin : V8.World :=
  (fetchSend (fetchJoin V8.World.empty bobRequest 0).2 aliceRequest (V8.Clock.single 1000)).2

end V7

namespace V8

/-- A request to `/send` from the address `203.0.113.7` by `alice`. -/
def aliceSend : Request :=
  { ipAddress := some "203.0.113.7", u := some "alice", m := some "hi" }

/-- A namespace whose ban list holds the address of `aliceSend`. -/
def bannedWorld : World :=
  { kv := { bannedIPs := some [some "198.51.100.9", some "203.0.113.7"], data := fun _ => none },
    db := [], heap := Heap.fresh }

/-- The state after `alice` has joined at instant 0 from a fresh address. -/
def joinedWorld : World := (fetchJoin World.empty aliceSend 0).2

/-- The state after `alice` has joined and then sent `n` messages one second apart,
the first at instant 1000. -/
def afterSends : Nat → World
  | 0 => joinedWorld
  | n + 1 => (fetchSend (afterSends n) aliceSend (Clock.single (1000 * (n + 1)))).2

/-- The `users` map of `busyState`: `alice` has sent two messages, the last at 21000. -/
def busyUsers : String → Option UserData := fun k =>
  if k = "alice" then
    some { count := .num 2, lastMessageTime := .num 21000, suspendedUntil := .undefined,
           joinTime := .num 0 }
  else none

/-- A state written out in full, in a new isolate: the address `203.0.113.7` has the count
4, last counted at 21000, and is not suspended. -/
def busyState : World :=
  { kv :=
      { bannedIPs := none,
        data := fun k =>
          if k = "data_203.0.113.7" then
            some { users := some busyUsers, count := .num 4, lastMessageTime := .num 21000,
                   suspendedUntil := .undefined }
          else none },
    db := [], heap := Heap.fresh }

/-- A request from the address `203.0.113.7` whose username is `constructor`, the name of a
member of `Object.prototype`. -/
def constructorRequest : Request :=
  { ipAddress := some "203.0.113.7", u := some "constructor", m := some "hi" }

/-- A request from the same address whose username is `__proto__`. -/
def protoRequest : Request :=
  { ipAddress := some "203.0.113.7", u := some "__proto__", m := some "hi" }

/-- A request from the same address whose username is `count`. -/
def countRequest : Request :=
  { ipAddress := some "203.0.113.7", u := some "count", m := some "hi" }

/-- The state after `alice` has joined at 0 and a message has been sent at 1000 under the
username `__proto__`: the handler has set `count` and `lastMessageTime` on
`Object.prototype`. -/
def pollutedWorld : World := (fetchSend joinedWorld protoRequest (Clock.single 1000)).2

/-- A request to `/join` by `mallory` from the banned address `198.51.100.9`. -/
def malloryJoin : Request :=
  { ipAddress := some "198.51.100.9", u := some "mallory", m := none }

/-- The state before the suspension: after the join and one message at 1000, the window
elapses and two more messages arrive, at 20000 and 21000. -/
def busyWorld : World :=
  (fetchSend (fetchSend (afterSends 1) aliceSend (Clock.single 20000)).2 aliceSend
    (Clock.single 21000)).2

/-- The state after the next message, at 22000, which trips the limit in the handler:
`alice` and the address are suspended until 112000. -/
def suspendedWorld : World := (fetchSend busyWorld aliceSend (Clock.single 22000)).2

/-- The state after the suspension has expired and, from 200000 on, a request without
message and two messages have been handled. -/
def expiredWorld : World :=
  (fetchSend
    (fetchSend
      (fetchSend suspendedWorld { aliceSend with m := none } (Clock.single 200000)).2
      aliceSend (Clock.single 201000)).2
    aliceSend (Clock.single 202000)).2

end V8

/-! ## Properties of variant V8.1.0 -/

namespace V8

/-- C1: on `/send`, a request whose address is a member of the stored ban list is answered
with the 403 rejection, stores no message, and leaves the key-value namespace (hence every
record, present or absent) exactly as it was. -/
theorem banned_send_has_no_effect (w : World) (req : Request) (clk : Clock)
    (l : List (Option String)) (hl : w.kv.bannedIPs = some l) (hmem : req.ipAddress ∈ l) :
    (fetchSend w req clk).1 = Response.banned ∧ (fetchSend w req clk).1.status = 403 ∧
      (fetchSend w req clk).2.db = w.db ∧ (fetchSend w req clk).2.kv = w.kv ∧
      (w.kv.get (dataKey req.ipAddress) = none →
        (fetchSend w req clk).2.kv.get (dataKey req.ipAddress) = none) := by
  have hb : isIPBanned req.ipAddress w.kv = true := by
    simp [isIPBanned, hl, hmem]
  have h : fetchSend w req clk = (Response.banned, w) := by
    simp [fetchSend, hb]
  rw [h]
  exact ⟨rfl, rfl, rfl, rfl, fun h0 => h0⟩

/-- Witness of C1: the banned address `203.0.113.7` at instant 0. -/
theorem banned_send_has_no_effect_witness :
    (fetchSend bannedWorld aliceSend (Clock.single 0)).1 = Response.banned ∧
      (fetchSend bannedWorld aliceSend (Clock.single 0)).1.status = 403 ∧
      (fetchSend bannedWorld aliceSend (Clock.single 0)).2.db = bannedWorld.db ∧
      (fetchSend bannedWorld aliceSend (Clock.single 0)).2.kv = bannedWorld.kv ∧
      (bannedWorld.kv.get (dataKey aliceSend.ipAddress) = none →
        (fetchSend bannedWorld aliceSend (Clock.single 0)).2.kv.get
          (dataKey aliceSend.ipAddress) = none) :=
  banned_send_has_no_effect bannedWorld aliceSend (Clock.single 0)
    [some "198.51.100.9", some "203.0.113.7"] rfl (by decide)

/-- C2 (evaluation of the code): from an address without a stored record the first `/send`
is not answered 200: `checkIPRateLimit` writes a record without `users`, and the handler
then fails on `data.users[user]`.  And once a `users` map exists (after `/join`), every
message is counted twice at the address scope, so the fourth request in a row is the one
rejected with 429, where the limit of five messages announces the sixth. -/
theorem first_send_from_fresh_address_fails :
    (fetchSend World.empty aliceSend (Clock.single 1000)).1 = Response.typeError ∧
      (fetchSend World.empty aliceSend (Clock.single 1000)).1.status = 500 ∧
      (fetchSend (afterSends 0) aliceSend (Clock.single 1000)).1.status = 200 ∧
      (fetchSend (afterSends 1) aliceSend (Clock.single 2000)).1.status = 200 ∧
      (fetchSend (afterSends 2) aliceSend (Clock.single 3000)).1.status = 200 ∧
      (fetchSend (afterSends 3) aliceSend (Clock.single 4000)).1.status = 429 := by
  decide

end V8

/-! ## Properties of variant V3 -/

namespace V3

theorem put_same (kv : String → Option UserData) (key : String) (d : UserData) :
    put kv key d key = some d.json := by
  simp [put]

theorem fetchSend_fresh (w : World) (user msg : String) (now : Nat) (hu : user ≠ "")
    (hm : msg ≠ "") (h : w.kv (userKey user) = none) :
    fetchSend w { u := some user, m := some msg } now =
      (Response.messageSent,
        { kv := put w.kv (userKey user)
            { count := .num 1, lastMessageTime := .num now, suspendedUntil := .num 0 },
          db := w.db ++ [(user, msg)] }) := by
  simp [fetchSend, paramPresent, hu, hm, h, JSVal.gt, JSVal.lt, JSVal.sub, JSVal.add,
    JSVal.toNumber]

theorem fetchSend_counted (w : World) (user msg : String) (now : Nat) (c lmt su : Int)
    (hu : user ≠ "") (hm : msg ≠ "")
    (h : w.kv (userKey user) =
      some { count := .num c, lastMessageTime := .num lmt, suspendedUntil := .num su })
    (hsu : su ≤ now) (hwin : (now : Int) - lmt < 60000) :
    fetchSend w { u := some user, m := some msg } now =
      if c + 1 > 5 then
        (Response.suspended (.num (c + 1)),
          { w with
            kv := put w.kv (userKey user)
              { count := .num (c + 1), lastMessageTime := .num now,
                suspendedUntil := .num (now + 60000 * (c + 1)) } })
      else
        (Response.messageSent,
          { kv := put w.kv (userKey user)
              { count := .num (c + 1), lastMessageTime := .num now, suspendedUntil := .num su },
            db := w.db ++ [(user, msg)] }) := by
  have h1 : ¬ (su > (now : Int)) := by omega
  simp [fetchSend, paramPresent, hu, hm, h, JSVal.gt, JSVal.lt, JSVal.sub, JSVal.add,
    JSVal.mul, JSVal.toNumber, hwin, h1]


theorem fetchSend_allowed (w : World) (user msg : String) (now : Nat) (c lmt : Int)
    (hu : user ≠ "") (hm : msg ≠ "")
    (h : w.kv (userKey user) =
      some { count := .num c, lastMessageTime := .num lmt, suspendedUntil := .num 0 })
    (hwin : (now : Int) - lmt < 60000) (hc : c < 5) :
    (fetchSend w { u := some user, m := some msg } now).1 = Response.messageSent ∧
      (fetchSend w { u := some user, m := some msg } now).2.kv (userKey user) =
        some { count := .num (c + 1), lastMessageTime := .num now, suspendedUntil := .num 0 } ∧
      (fetchSend w { u := some user, m := some msg } now).2.db = w.db ++ [(user, msg)] := by
  have hn : ¬ (5 < c + 1) := by omega
  rw [fetchSend_counted w user msg now c lmt 0 hu hm h (by omega) hwin]
  simp [hn, put, UserData.json, JSVal.json]

theorem fetchSend_violation (w : World) (user msg : String) (now : Nat) (c lmt : Int)
    (hu : user ≠ "") (hm : msg ≠ "")
    (h : w.kv (userKey user) =
      some { count := .num c, lastMessageTime := .num lmt, suspendedUntil := .num 0 })
    (hwin : (now : Int) - lmt < 60000) (hc : 5 ≤ c) :
    (fetchSend w { u := some user, m := some msg } now).1 = Response.suspended (.num (c + 1)) ∧
      (fetchSend w { u := some user, m := some msg } now).2.kv (userKey user) =
        some { count := .num (c + 1), lastMessageTime := .num now,
               suspendedUntil := .num (now + 60000 * (c + 1)) } ∧
      (fetchSend w { u := some user, m := some msg } now).2.db = w.db := by
  have hn : 5 < c + 1 := by omega
  rw [fetchSend_counted w user msg now c lmt 0 hu hm h (by omega) hwin]
  simp [hn, put, UserData.json, JSVal.json]

/-- C3: in variant V3 (one record per username, window 60000 ms, threshold 5), for a username
without a stored record and six `/send` requests at instants `t1, ..., t6`, each less than
60000 ms after the previous one (non-decreasing instants are a special case), the first five
are answered 200 and stored, the sixth is answered 429 and not stored, and the record
persisted by the sixth has `count = 6` and `suspendedUntil = t6 + 60000 * 6`. -/
theorem six_sends_within_window (w : World) (user : String) (m1 m2 m3 m4 m5 m6 : String)
    (t1 t2 t3 t4 t5 t6 : Nat)
    (hfresh : w.kv (userKey user) = none) (hu : user ≠ "")
    (hm1 : m1 ≠ "") (hm2 : m2 ≠ "") (hm3 : m3 ≠ "") (hm4 : m4 ≠ "") (hm5 : m5 ≠ "")
    (hm6 : m6 ≠ "")
    (d12 : (t2 : Int) - t1 < 60000) (d23 : (t3 : Int) - t2 < 60000)
    (d34 : (t4 : Int) - t3 < 60000) (d45 : (t5 : Int) - t4 < 60000)
    (d56 : (t6 : Int) - t5 < 60000) :
    let r1 := fetchSend w { u := some user, m := some m1 } t1
    let r2 := fetchSend r1.2 { u := some user, m := some m2 } t2
    let r3 := fetchSend r2.2 { u := some user, m := some m3 } t3
    let r4 := fetchSend r3.2 { u := some user, m := some m4 } t4
    let r5 := fetchSend r4.2 { u := some user, m := some m5 } t5
    let r6 := fetchSend r5.2 { u := some user, m := some m6 } t6
    r1.1.status = 200 ∧ r2.1.status = 200 ∧ r3.1.status = 200 ∧ r4.1.status = 200 ∧
      r5.1.status = 200 ∧ r6.1.status = 429 ∧
      r5.2.db = w.db ++ [(user, m1), (user, m2), (user, m3), (user, m4), (user, m5)] ∧
      r6.2.db = r5.2.db ∧
      r6.2.kv (userKey user) =
        some { count := .num 6, lastMessageTime := .num t6,
               suspendedUntil := .num (t6 + 60000 * 6) } := by
  intro r1 r2 r3 r4 r5 r6
  have e1 : r1 = _ := fetchSend_fresh w user m1 t1 hu hm1 hfresh
  have k1 : r1.2.kv (userKey user) =
      some { count := .num 1, lastMessageTime := .num t1, suspendedUntil := .num 0 } := by
    rw [e1]; simp [put, UserData.json, JSVal.json]
  have b1 : r1.2.db = w.db ++ [(user, m1)] := by rw [e1]
  have s1 : r1.1 = Response.messageSent := by rw [e1]
  obtain ⟨s2, k2, b2⟩ := fetchSend_allowed r1.2 user m2 t2 1 t1 hu hm2 k1 (by omega) (by omega)
  obtain ⟨s3, k3, b3⟩ := fetchSend_allowed r2.2 user m3 t3 2 t2 hu hm3 k2 (by omega) (by omega)
  obtain ⟨s4, k4, b4⟩ := fetchSend_allowed r3.2 user m4 t4 3 t3 hu hm4 k3 (by omega) (by omega)
  obtain ⟨s5, k5, b5⟩ := fetchSend_allowed r4.2 user m5 t5 4 t4 hu hm5 k4 (by omega) (by omega)
  obtain ⟨s6, k6, b6⟩ := fetchSend_violation r5.2 user m6 t6 5 t5 hu hm6 k5 (by omega) (by omega)
  refine ⟨?_, ?_, ?_, ?_, ?_, ?_, ?_, b6, ?_⟩
  · rw [s1]; rfl
  · show (fetchSend r1.2 _ _).1.status = 200
    rw [s2]; rfl
  · show (fetchSend r2.2 _ _).1.status = 200
    rw [s3]; rfl
  · show (fetchSend r3.2 _ _).1.status = 200
    rw [s4]; rfl
  · show (fetchSend r4.2 _ _).1.status = 200
    rw [s5]; rfl
  · show (fetchSend r5.2 _ _).1.status = 429
    rw [s6]; rfl
  · show (fetchSend r4.2 _ _).2.db = _
    rw [b5]
    show (fetchSend r3.2 _ _).2.db ++ _ = _
    rw [b4]
    show ((fetchSend r2.2 _ _).2.db ++ _) ++ _ = _
    rw [b3]
    show (((fetchSend r1.2 _ _).2.db ++ _) ++ _) ++ _ = _
    rw [b2, b1]
    simp
  · exact k6


/-- Witness of C3, the scenario of the specification: requests at 0, 10000, 20000, 30000,
40000 and 50000 by the same username; five are answered 200, the sixth is answered 429 and
leaves `count = 6` and `suspendedUntil = 410000`. -/
theorem six_sends_scenario :
    (fetchSend (scenario 0) { u := some "A", m := some "m" } 0).1.status = 200 ∧
      (fetchSend (scenario 1) { u := some "A", m := some "m" } 10000).1.status = 200 ∧
      (fetchSend (scenario 2) { u := some "A", m := some "m" } 20000).1.status = 200 ∧
      (fetchSend (scenario 3) { u := some "A", m := some "m" } 30000).1.status = 200 ∧
      (fetchSend (scenario 4) { u := some "A", m := some "m" } 40000).1.status = 200 ∧
      (fetchSend (scenario 5) { u := some "A", m := some "m" } 50000).1.status = 429 ∧
      (scenario 6).kv (userKey "A") =
        some { count := .num 6, lastMessageTime := .num 50000,
               suspendedUntil := .num 410000 } := by
  have h := six_sends_within_window World.empty "A" "m" "m" "m" "m" "m" "m"
    0 10000 20000 30000 40000 50000 rfl (by decide) (by decide) (by decide) (by decide)
    (by decide) (by decide) (by decide) (by decide) (by decide) (by decide) (by decide)
    (by decide)
  exact ⟨h.1, h.2.1, h.2.2.1, h.2.2.2.1, h.2.2.2.2.1, h.2.2.2.2.2.1, h.2.2.2.2.2.2.2.2⟩

end V3

/-! ## JavaScript values and parameters: auxiliary facts -/

@[simp] theorem JSVal.json_num (n : Int) : (JSVal.num n).json = JSVal.num n := rfl

@[simp] theorem JSVal.json_null : JSVal.null.json = JSVal.null := rfl

@[simp] theorem JSVal.json_undefined : JSVal.undefined.json = JSVal.undefined := rfl

@[simp] theorem JSVal.json_nan : JSVal.nan.json = JSVal.null := rfl

theorem paramPresent_eq_true (o : Option String) :
    paramPresent o = true ↔ ∃ s, o = some s ∧ s ≠ "" := by
  cases o <;> simp [paramPresent]

/-! ## Properties of variant V8.1.0: the rate limiter -/

@[simp] theorem JSVal.orInherited_num (n : Int) (v : JSVal) :
    (JSVal.num n).orInherited v = JSVal.num n := rfl

@[simp] theorem JSVal.orInherited_null (v : JSVal) :
    JSVal.null.orInherited v = JSVal.null := rfl

@[simp] theorem JSVal.orInherited_nan (v : JSVal) :
    JSVal.nan.orInherited v = JSVal.nan := rfl

@[simp] theorem JSVal.orInherited_undefined (v : JSVal) :
    JSVal.undefined.orInherited v = v := rfl

namespace V8

theorem checkIPRateLimit_bannedIPs (ip : Option String) (kv : KV) (heap : Heap) (t : Nat) :
    (checkIPRateLimit ip kv heap t).2.bannedIPs = kv.bannedIPs := by
  simp [checkIPRateLimit, KV.put]

theorem checkIPRateLimit_other (ip : Option String) (kv : KV) (heap : Heap) (t : Nat)
    (k : String) (hk : k ≠ dataKey ip) :
    (checkIPRateLimit ip kv heap t).2.data k = kv.data k := by
  simp [checkIPRateLimit, KV.put, hk]

/-- The record left by `checkIPRateLimit` when a record was stored. -/
theorem checkIPRateLimit_stored (ip : Option String) (kv : KV) (heap : Heap) (t : Nat)
    (d0 : Data) (h : kv.data (dataKey ip) = some d0) :
    (checkIPRateLimit ip kv heap t).2.data (dataKey ip) =
      some { users := d0.json.users,
             count := ((if ((JSVal.num t).sub
                 (d0.lastMessageTime.orInherited heap.objectPrototype.lastMessageTime)).gt
                 (.num 15000)
               then JSVal.num 0
               else d0.count.orInherited heap.objectPrototype.count).add (.num 1)).json,
             lastMessageTime := .num t,
             suspendedUntil := d0.suspendedUntil.json } := by
  by_cases hg : ((JSVal.num t).sub
      (d0.lastMessageTime.orInherited heap.objectPrototype.lastMessageTime)).gt
      (.num 15000) = true <;>
    simp [checkIPRateLimit, KV.put, KV.get, h, hg, Data.json]

/-- The record left by `checkIPRateLimit` when the stored record has a numeric `count` and
`lastMessageTime`: the count restarts at 1 after more than 15000 ms and rises by 1
otherwise. -/
theorem checkIPRateLimit_numeric (ip : Option String) (kv : KV) (heap : Heap) (t : Nat)
    (d0 : Data) (c l : Int) (h : kv.data (dataKey ip) = some d0)
    (hc : d0.count = .num c) (hl : d0.lastMessageTime = .num l) :
    (checkIPRateLimit ip kv heap t).2.data (dataKey ip) =
      some { users := d0.json.users,
             count := .num (if (t : Int) - l > 15000 then 1 else c + 1),
             lastMessageTime := .num t,
             suspendedUntil := d0.suspendedUntil.json } := by
  rw [checkIPRateLimit_stored ip kv heap t d0 h, hc, hl]
  by_cases hg : (t : Int) - l > 15000 <;>
    simp [JSVal.sub, JSVal.gt, JSVal.add, JSVal.toNumber, hg]

theorem lookupUser_own (users : String → Option UserData) (heap : Heap) (user : String)
    (ud : UserData) (h : users user = some ud) : lookupUser users heap user = .own ud := by
  simp [lookupUser, h]

theorem ensureUser_own (users : String → Option UserData) (heap : Heap) (user : String)
    (ud : UserData) (h : users user = some ud) : ensureUser users heap user = users := by
  simp [ensureUser, lookupUser_own users heap user ud h, Found.truthy]

theorem setUser_setUser (users : String → Option UserData) (user : String)
    (a b : UserData) : setUser (setUser users user a) user b = setUser users user b := by
  funext k
  by_cases hk : k = user <;> simp [setUser, hk]

/-- The request reaches the counters of the handler once the ban check, the pre-check and
the validation have let it through and the loaded record has a `users` map. -/
theorem fetchSend_counters (w : World) (req : Request) (clk : Clock) (user message : String)
    (d : Data) (users : String → Option UserData)
    (hban : isIPBanned req.ipAddress w.kv = false)
    (hpre : (checkIPRateLimit req.ipAddress w.kv w.heap clk.pre).1 = false)
    (hu : req.u = some user) (hune : user ≠ "") (hm : req.m = some message)
    (hmne : message ≠ "")
    (hd : (checkIPRateLimit req.ipAddress w.kv w.heap clk.pre).2.get (dataKey req.ipAddress) =
      some d)
    (hus : d.users = some users) :
    fetchSend w req clk =
      sendCounters w (checkIPRateLimit req.ipAddress w.kv w.heap clk.pre).2
        (dataKey req.ipAddress) d users user message clk := by
  have hp : checkIPRateLimit req.ipAddress w.kv w.heap clk.pre =
      (false, (checkIPRateLimit req.ipAddress w.kv w.heap clk.pre).2) := by
    rw [← hpre]
  unfold fetchSend
  rw [hp] at hd ⊢
  simp only [hban, hu, hm, paramPresent, hune, hmne, hd, hus]
  simp [hune, hmne, hus]

theorem setUser_ensureUser (users : String → Option UserData) (heap : Heap) (user : String)
    (x : UserData) : setUser (ensureUser users heap user) user x = setUser users user x := by
  unfold ensureUser
  split
  · rfl
  · exact setUser_setUser users user _ x

/-- The counters of the handler for a username that, after lines 36-38, is an own property
of `data.users` (a stored sub-record, or the one just created): the sub-record is updated
in the `users` map and the heap is not touched. -/
theorem sendCounters_own (w : World) (kv1 : KV) (key : String) (d : Data)
    (users : String → Option UserData) (user message : String) (clk : Clock)
    (ud : UserData) (cu ca : JSVal) (hud : ensureUser users w.heap user user = some ud)
    (hcu : windowCount clk.now (ud.count.orInherited w.heap.objectPrototype.count)
      (ud.lastMessageTime.orInherited w.heap.objectPrototype.lastMessageTime) = cu)
    (hca : windowCount clk.now (d.count.orInherited w.heap.objectPrototype.count)
      (d.lastMessageTime.orInherited w.heap.objectPrototype.lastMessageTime) = ca) :
    sendCounters w kv1 key d users user message clk =
      if cu.gt (.num 5) || ca.gt (.num 5) then
        (Response.suspended (cu.max ca) (formatTimeUntil (suspensionTime clk.now cu ca) clk.fmt),
          { w with
            kv := kv1.put key
              { users := some (setUser users user
                  { ud with
                    count := cu, lastMessageTime := .num clk.now,
                    suspendedUntil := suspensionTime clk.now cu ca }),
                count := ca, lastMessageTime := .num clk.now,
                suspendedUntil := suspensionTime clk.now cu ca } })
      else
        (Response.messageSent,
          { w with
            kv := kv1.put key
              { users := some (setUser users user
                  { ud with count := cu, lastMessageTime := .num clk.now }),
                count := ca, lastMessageTime := .num clk.now,
                suspendedUntil := d.suspendedUntil },
            db := w.db ++ [{ user := user, message := message, timestamp := clk.now }] }) := by
  subst hcu hca
  simp only [sendCounters, lookupUser_own _ w.heap user ud hud, Found.target, readUser, hud,
    Option.getD_some, writeUser, setUser_setUser, setUser_ensureUser]

/-- The address record after the counters of the handler, whatever the username resolves
to, for a loaded record with numeric `count` and `lastMessageTime`: either the assignment
to a number raises and nothing is written, or the record is written with the updated
count and `lastMessageTime = now`.  The ban list is never touched. -/
theorem sendCounters_address (w : World) (kv1 : KV) (key : String) (d : Data)
    (users : String → Option UserData) (user message : String) (clk : Clock) (p l : Int)
    (hc : d.count = .num p) (hl : d.lastMessageTime = .num l) :
    (sendCounters w kv1 key d users user message clk =
        (Response.typeError, { w with kv := kv1 })) ∨
      (((sendCounters w kv1 key d users user message clk).2.kv.get key).map Data.count =
          some (windowCount clk.now (.num p) (.num l)).json ∧
        ((sendCounters w kv1 key d users user message clk).2.kv.get key).map
          Data.lastMessageTime = some (.num clk.now) ∧
        (sendCounters w kv1 key d users user message clk).2.kv.bannedIPs = kv1.bannedIPs ∧
        (sendCounters w kv1 key d users user message clk).1 ≠ Response.typeError) := by
  cases ht : (lookupUser (ensureUser users w.heap user) w.heap user).target with
  | none => left; simp [sendCounters, ht]
  | some target =>
    right
    simp only [sendCounters, ht, hc, hl, JSVal.orInherited_num]
    split <;> simp [KV.put, KV.get, Data.json]

end V8

namespace V8

/-- C4 (evaluation of the code): a username that names a member of `Object.prototype` gets no
sub-record.  In `busyState` the request of the username `constructor` at 22000 passes the
pre-check and trips the limit in the handler (address count 6): the response is the 429
suspension and the address record is persisted with `suspendedUntil = 112000`, but
`data.users["constructor"]` has found the inherited function `Object`, so the count and the
suspension of the username are written on that function and the persisted `users` map has
no entry for the username.  With the username `__proto__` they are written on
`Object.prototype` itself. -/
theorem inherited_username_suspension_is_not_persisted :
    isIPBanned constructorRequest.ipAddress busyState.kv = false ∧
      (fetchSend busyState constructorRequest (Clock.single 22000)).1 =
        Response.suspended (.num 6) (TimeText.minutesSeconds 1 30) ∧
      (fetchSend busyState constructorRequest (Clock.single 22000)).1.status = 429 ∧
      ((fetchSend busyState constructorRequest (Clock.single 22000)).2.kv.get
        (dataKey constructorRequest.ipAddress)).map Data.suspendedUntil = some (.num 112000) ∧
      (fetchSend busyState constructorRequest (Clock.single 22000)).2.kv.user
        (dataKey constructorRequest.ipAddress) "constructor" = none ∧
      ((fetchSend busyState constructorRequest (Clock.single 22000)).2.heap.functions
        "constructor").suspendedUntil = .num 112000 ∧
      (fetchSend busyState protoRequest (Clock.single 22000)).1.status = 429 ∧
      (fetchSend busyState protoRequest (Clock.single 22000)).2.kv.user
        (dataKey protoRequest.ipAddress) "__proto__" = none ∧
      (fetchSend busyState protoRequest
        (Clock.single 22000)).2.heap.objectPrototype.suspendedUntil = .num 112000 := by
  decide

/-- Suspension of both scopes for an own sub-record: when the username is, after lines
36-38, an own property of `data.users` (a stored sub-record or the one just created) and
the counter update leaves
the username count `cu` or the address count `ca` greater than 5, the record is persisted
with the suspension time `now + 15000 * Math.max(cu, ca)` at both the address record and the
username sub-record (for numbers `cu` and `ca` this is the integer
`now + 15000 * max cu ca`), the response is 429 and no message is stored. -/
theorem violation_suspends_both_scopes (w : World) (req : Request) (clk : Clock)
    (user message : String) (d : Data) (users : String → Option UserData) (ud : UserData)
    (cu ca : JSVal)
    (hban : isIPBanned req.ipAddress w.kv = false)
    (hpre : (checkIPRateLimit req.ipAddress w.kv w.heap clk.pre).1 = false)
    (hu : req.u = some user) (hune : user ≠ "") (hm : req.m = some message)
    (hmne : message ≠ "")
    (hd : (checkIPRateLimit req.ipAddress w.kv w.heap clk.pre).2.get (dataKey req.ipAddress) =
      some d)
    (hus : d.users = some users)
    (hud : ensureUser users w.heap user user = some ud)
    (hcu : windowCount clk.now (ud.count.orInherited w.heap.objectPrototype.count)
      (ud.lastMessageTime.orInherited w.heap.objectPrototype.lastMessageTime) = cu)
    (hca : windowCount clk.now (d.count.orInherited w.heap.objectPrototype.count)
      (d.lastMessageTime.orInherited w.heap.objectPrototype.lastMessageTime) = ca)
    (hv : cu.gt (.num 5) = true ∨ ca.gt (.num 5) = true) :
    (fetchSend w req clk).1.status = 429 ∧ (fetchSend w req clk).2.db = w.db ∧
      ((fetchSend w req clk).2.kv.get (dataKey req.ipAddress)).map Data.suspendedUntil =
        some (suspensionTime clk.now cu ca).json ∧
      ((fetchSend w req clk).2.kv.user (dataKey req.ipAddress) user).map
        UserData.suspendedUntil = some (suspensionTime clk.now cu ca).json ∧
      ∀ nu na : Int, cu = .num nu → ca = .num na →
        (suspensionTime clk.now cu ca).json = .num (clk.now + 15000 * max nu na) := by
  have hv2 : (cu.gt (.num 5) || ca.gt (.num 5)) = true := by
    simpa using hv
  rw [fetchSend_counters w req clk user message d users hban hpre hu hune hm hmne hd hus,
    sendCounters_own w _ _ d users user message clk ud cu ca hud hcu hca, if_pos hv2]
  refine ⟨rfl, rfl, ?_, ?_, ?_⟩
  · simp [KV.put, KV.get, Data.json]
  · simp [KV.put, KV.get, KV.user, Data.json, setUser, UserData.json]
  · intro nu na hnu hna
    subst hnu hna
    simp [suspensionTime, JSVal.add, JSVal.mul, JSVal.max, JSVal.toNumber, JSVal.json]

/-- An instance of the preceding statement: in `busyState` the address count is 4; the
request of `alice` at 22000 passes the pre-check (count 5), the handler counts it again
(count 6), and both scopes are suspended until `22000 + 15000 * 6 = 112000`. -/
theorem violation_suspends_both_scopes_witness :
    (fetchSend busyState aliceSend (Clock.single 22000)).1.status = 429 ∧
      (fetchSend busyState aliceSend (Clock.single 22000)).2.db = busyState.db ∧
      ((fetchSend busyState aliceSend (Clock.single 22000)).2.kv.get
        (dataKey aliceSend.ipAddress)).map Data.suspendedUntil = some (.num 112000) ∧
      ((fetchSend busyState aliceSend (Clock.single 22000)).2.kv.user
        (dataKey aliceSend.ipAddress) "alice").map UserData.suspendedUntil =
        some (.num 112000) := by
  have h := violation_suspends_both_scopes busyState aliceSend (Clock.single 22000) "alice" "hi"
    { users := some (fun k => (busyUsers k).map UserData.json), count := .num 5,
      lastMessageTime := .num 22000, suspendedUntil := .undefined }
    (fun k => (busyUsers k).map UserData.json)
    { count := .num 2, lastMessageTime := .num 21000, suspendedUntil := .undefined,
      joinTime := .num 0 }
    (.num 3) (.num 6)
    (by decide) (by decide) rfl (by decide) rfl (by decide) rfl rfl (by decide) (by decide)
    (by decide) (Or.inr (by decide))
  exact ⟨h.1, h.2.1, h.2.2.1, h.2.2.2.1⟩

end V8


namespace V8

/-- The address record after `/send` when every clock reading of the request is `t`: the
counter is the one of the pre-check or one more, and `lastMessageTime` is `t`. -/
theorem fetchSend_single_address (w : World) (req : Request) (t : Nat) (d0 : Data)
    (c l : Int) (hban : isIPBanned req.ipAddress w.kv = false)
    (h0 : w.kv.data (dataKey req.ipAddress) = some d0)
    (hc : d0.count = .num c) (hl : d0.lastMessageTime = .num l) :
    ∃ n : Int,
      ((fetchSend w req (Clock.single t)).2.kv.get (dataKey req.ipAddress)).map Data.count =
        some (.num n) ∧
      ((fetchSend w req (Clock.single t)).2.kv.get (dataKey req.ipAddress)).map
        Data.lastMessageTime = some (.num t) ∧
      (if (t : Int) - l > 15000 then 1 else c + 1) ≤ n ∧
      n ≤ (if (t : Int) - l > 15000 then 1 else c + 1) + 1 ∧
      isIPBanned req.ipAddress (fetchSend w req (Clock.single t)).2.kv = false := by
  have hk := checkIPRateLimit_numeric req.ipAddress w.kv w.heap t d0 c l h0 hc hl
  have hb1 : isIPBanned req.ipAddress (checkIPRateLimit req.ipAddress w.kv w.heap t).2 =
      false := by
    simpa [isIPBanned, checkIPRateLimit_bannedIPs] using hban
  generalize hp : (if (t : Int) - l > 15000 then (1 : Int) else c + 1) = p at hk ⊢
  rcases hck : checkIPRateLimit req.ipAddress w.kv w.heap t with ⟨b, kv1⟩
  rw [hck] at hk hb1
  simp only at hk hb1
  have hkeep : ∀ r : Response, fetchSend w req (Clock.single t) = (r, { w with kv := kv1 }) →
      ∃ n : Int,
        ((fetchSend w req (Clock.single t)).2.kv.get (dataKey req.ipAddress)).map Data.count =
          some (.num n) ∧
        ((fetchSend w req (Clock.single t)).2.kv.get (dataKey req.ipAddress)).map
          Data.lastMessageTime = some (.num t) ∧
        p ≤ n ∧ n ≤ p + 1 ∧
        isIPBanned req.ipAddress (fetchSend w req (Clock.single t)).2.kv = false := by
    intro r e
    rw [e]
    exact ⟨p, by simp [KV.get, hk], by simp [KV.get, hk], le_refl _, by omega, hb1⟩
  cases b
  · by_cases hpar : (!paramPresent req.u || !paramPresent req.m) = true
    · exact hkeep .missingUserOrMessage (by simp [fetchSend, hban, Clock.single, hck, hpar])
    · cases hus : d0.json.users with
      | none =>
        exact hkeep .typeError
          (by simp [fetchSend, hban, Clock.single, hck, hpar, KV.get, hk, hus])
      | some users =>
        simp only [Bool.or_eq_true, Bool.not_eq_true', not_or, Bool.not_eq_false] at hpar
        obtain ⟨user, hu, hune⟩ := (paramPresent_eq_true _).1 hpar.1
        obtain ⟨message, hm, hmne⟩ := (paramPresent_eq_true _).1 hpar.2
        have hkv1 : kv1 =
            (checkIPRateLimit req.ipAddress w.kv w.heap (Clock.single t).pre).2 := by
          simp [Clock.single, hck]
        have hpre : (checkIPRateLimit req.ipAddress w.kv w.heap (Clock.single t).pre).1 =
            false := by
          simp [Clock.single, hck]
        have hca : windowCount (Clock.single t).now (JSVal.num p) (JSVal.num t) =
            .num (p + 1) := by
          simp [windowCount, Clock.single, JSVal.sub, JSVal.lt, JSVal.add, JSVal.toNumber]
        have e := fetchSend_counters w req (Clock.single t) user message
          { users := d0.json.users, count := .num p, lastMessageTime := .num t,
            suspendedUntil := d0.suspendedUntil.json }
          users hban hpre hu hune hm hmne (by rw [← hkv1]; exact hk) hus
        rw [← hkv1] at e
        rcases sendCounters_address w kv1 (dataKey req.ipAddress)
          { users := d0.json.users, count := .num p, lastMessageTime := .num t,
            suspendedUntil := d0.suspendedUntil.json }
          users user message (Clock.single t) p t rfl rfl with hty | ⟨k1, k2, k3, -⟩
        · exact hkeep .typeError (by rw [e, hty])
        · rw [e]
          rw [hca] at k1
          refine ⟨p + 1, by simpa using k1, by simpa [Clock.single] using k2, by omega,
            le_refl _, ?_⟩
          have hb2 : kv1.bannedIPs = w.kv.bannedIPs := by
            have := checkIPRateLimit_bannedIPs req.ipAddress w.kv w.heap t
            rwa [hck] at this
          simpa [isIPBanned, k3, hb2] using hban
  · exact hkeep
      (.rateLimitExceeded (formatTimeUntil (getSuspensionTime req.ipAddress kv1 w.heap) t))
      (by simp [fetchSend, hban, Clock.single, hck])

/-- C5 (evaluation of the code): `/send` never reads `suspendedUntil`.  After the trace that ends
with the suspension of `alice` and of the address at instant 22000 (until 112000), a request
at 23000 is rejected by the pre-check yet rewrites the address counter and instant, and a
request at 40000, still inside the suspension, is answered 200 and its message is stored,
with both counters rewritten. -/
theorem suspended_sender_is_still_counted_and_served :
    (suspendedWorld.kv.get (dataKey aliceSend.ipAddress)).map Data.suspendedUntil =
        some (.num 112000) ∧
      (suspendedWorld.kv.user (dataKey aliceSend.ipAddress) "alice").map
        UserData.suspendedUntil = some (.num 112000) ∧
      (suspendedWorld.kv.get (dataKey aliceSend.ipAddress)).map Data.count = some (.num 6) ∧
      (fetchSend suspendedWorld aliceSend (Clock.single 23000)).1.status = 429 ∧
      ((fetchSend suspendedWorld aliceSend (Clock.single 23000)).2.kv.get
        (dataKey aliceSend.ipAddress)).map Data.count = some (.num 7) ∧
      ((fetchSend suspendedWorld aliceSend (Clock.single 23000)).2.kv.get
        (dataKey aliceSend.ipAddress)).map Data.lastMessageTime = some (.num 23000) ∧
      (fetchSend suspendedWorld aliceSend (Clock.single 40000)).1 = Response.messageSent ∧
      (fetchSend suspendedWorld aliceSend (Clock.single 40000)).2.db =
        suspendedWorld.db ++ [{ user := "alice", message := "hi", timestamp := 40000 }] ∧
      ((fetchSend suspendedWorld aliceSend (Clock.single 40000)).2.kv.get
        (dataKey aliceSend.ipAddress)).map Data.count = some (.num 2) ∧
      ((fetchSend suspendedWorld aliceSend (Clock.single 40000)).2.kv.user
        (dataKey aliceSend.ipAddress) "alice").map UserData.count = some (.num 1) := by
  decide

/-- C6 (evaluation of the code): the 429 of the pre-check persists no suspension.  After
`/join` and three messages the fourth request is answered "Rate limit exceeded ... Please
check back in now", and the record it persists has no `suspendedUntil` at all; the same
answer after an expired suspension leaves the old instant 112000, which is not after the
request instant 203000. -/
theorem precheck_rejection_sets_no_suspension :
    (fetchSend (afterSends 3) aliceSend (Clock.single 4000)).1 =
        Response.rateLimitExceeded TimeText.now ∧
      (fetchSend (afterSends 3) aliceSend (Clock.single 4000)).1.status = 429 ∧
      ((fetchSend (afterSends 3) aliceSend (Clock.single 4000)).2.kv.get
        (dataKey aliceSend.ipAddress)).map Data.count = some (.num 6) ∧
      ((fetchSend (afterSends 3) aliceSend (Clock.single 4000)).2.kv.get
        (dataKey aliceSend.ipAddress)).map Data.suspendedUntil = some .undefined ∧
      (fetchSend expiredWorld aliceSend (Clock.single 203000)).1 =
        Response.rateLimitExceeded TimeText.now ∧
      ((fetchSend expiredWorld aliceSend (Clock.single 203000)).2.kv.get
        (dataKey aliceSend.ipAddress)).map Data.suspendedUntil = some (.num 112000) ∧
      (JSVal.num 112000).gt (.num 203000) = false := by
  decide

/-- C9 (evaluation of the code): with both windows elapsed (stored instants 2000, request at
100000) one `/send` persists the username count 1 but the address count 2: the pre-check
resets and counts the request, and the handler counts it again. -/
theorem reset_persists_address_count_two :
    ((afterSends 2).kv.get (dataKey aliceSend.ipAddress)).map Data.count = some (.num 3) ∧
      ((afterSends 2).kv.get (dataKey aliceSend.ipAddress)).map Data.lastMessageTime =
        some (.num 2000) ∧
      ((afterSends 2).kv.user (dataKey aliceSend.ipAddress) "alice").map UserData.count =
        some (.num 2) ∧
      ((afterSends 2).kv.user (dataKey aliceSend.ipAddress) "alice").map
        UserData.lastMessageTime = some (.num 2000) ∧
      (fetchSend (afterSends 2) aliceSend (Clock.single 100000)).1 = Response.messageSent ∧
      ((fetchSend (afterSends 2) aliceSend (Clock.single 100000)).2.kv.user
        (dataKey aliceSend.ipAddress) "alice").map UserData.count = some (.num 1) ∧
      ((fetchSend (afterSends 2) aliceSend (Clock.single 100000)).2.kv.get
        (dataKey aliceSend.ipAddress)).map Data.count = some (.num 2) := by
  decide

/-- C7 (the claim fails): a request without message from a non-banned address is answered
429, not 400, when the pre-check trips, and when it is answered 400 the address record has
been rewritten all the same (count 4 becomes 5, `lastMessageTime` 21000 becomes 22000). -/
theorem missing_parameter_request_writes_store :
    isIPBanned aliceSend.ipAddress (afterSends 3).kv = false ∧
      (fetchSend (afterSends 3) { aliceSend with m := none } (Clock.single 4000)).1.status = 429 ∧
      isIPBanned aliceSend.ipAddress busyState.kv = false ∧
      (fetchSend busyState { aliceSend with m := none } (Clock.single 22000)).1.status = 400 ∧
      (fetchSend busyState { aliceSend with m := none } (Clock.single 22000)).2.kv ≠
        busyState.kv := by
  refine ⟨by decide, by decide, by decide, by decide, ?_⟩
  intro h
  have h2 := congrArg (fun kv : KV => (kv.get (dataKey aliceSend.ipAddress)).map Data.count) h
  revert h2
  decide

/-- C7 (amended): a request whose username or message is missing, from a non-banned
address, is answered 400 when the pre-check of `checkIPRateLimit` does not trip and 429 when
it does; in both cases no message is stored and the only write is the one of the pre-check:
the ban list and every other key are unchanged, and in a stored record of the address the
`users` map and `suspendedUntil` are kept while `lastMessageTime` becomes the clock reading
of the pre-check. -/
theorem missing_parameter_request_effect (w : World) (req : Request) (clk : Clock)
    (hban : isIPBanned req.ipAddress w.kv = false)
    (hmiss : paramPresent req.u = false ∨ paramPresent req.m = false) :
    ((checkIPRateLimit req.ipAddress w.kv w.heap clk.pre).1 = false →
        (fetchSend w req clk).1 = Response.missingUserOrMessage ∧
        (fetchSend w req clk).1.status = 400) ∧
      ((checkIPRateLimit req.ipAddress w.kv w.heap clk.pre).1 = true →
        (fetchSend w req clk).1.status = 429) ∧
      (fetchSend w req clk).2.db = w.db ∧
      (fetchSend w req clk).2.kv = (checkIPRateLimit req.ipAddress w.kv w.heap clk.pre).2 ∧
      (fetchSend w req clk).2.kv.bannedIPs = w.kv.bannedIPs ∧
      (∀ k, k ≠ dataKey req.ipAddress → (fetchSend w req clk).2.kv.data k = w.kv.data k) ∧
      (∀ d0, w.kv.data (dataKey req.ipAddress) = some d0 →
        ((fetchSend w req clk).2.kv.get (dataKey req.ipAddress)).map Data.users =
          some d0.json.users ∧
        ((fetchSend w req clk).2.kv.get (dataKey req.ipAddress)).map Data.suspendedUntil =
          some d0.suspendedUntil.json ∧
        ((fetchSend w req clk).2.kv.get (dataKey req.ipAddress)).map Data.lastMessageTime =
          some (.num clk.pre)) := by
  have hpar : (!paramPresent req.u || !paramPresent req.m) = true := by
    rcases hmiss with h | h <;> simp [h]
  rcases hck : checkIPRateLimit req.ipAddress w.kv w.heap clk.pre with ⟨b, kv1⟩
  have hkv : (fetchSend w req clk).2 = { w with kv := kv1 } := by
    cases b <;> simp [fetchSend, hban, hck, hpar]
  have hb : kv1.bannedIPs = w.kv.bannedIPs := by
    have := checkIPRateLimit_bannedIPs req.ipAddress w.kv w.heap clk.pre
    rwa [hck] at this
  have ho : ∀ k, k ≠ dataKey req.ipAddress → kv1.data k = w.kv.data k := by
    intro k hk
    have := checkIPRateLimit_other req.ipAddress w.kv w.heap clk.pre k hk
    rwa [hck] at this
  refine ⟨?_, ?_, ?_, ?_, ?_, ?_, ?_⟩
  · intro hb0
    simp only at hb0
    subst hb0
    simp [fetchSend, hban, hck, hpar, Response.status]
  · intro hb1
    simp only at hb1
    subst hb1
    simp [fetchSend, hban, hck, Response.status]
  · rw [hkv]
  · rw [hkv]
  · rw [hkv]; exact hb
  · rw [hkv]; exact ho
  · intro d0 h0
    have hs := checkIPRateLimit_stored req.ipAddress w.kv w.heap clk.pre d0 h0
    rw [hck] at hs
    simp only at hs
    rw [hkv]
    simp [KV.get, hs]

/-- Witness of C7 (amended): the request without message at 22000 in `busyState`. -/
theorem missing_parameter_request_effect_witness :
    (fetchSend busyState { aliceSend with m := none } (Clock.single 22000)).2.db =
        busyState.db ∧
      (fetchSend busyState { aliceSend with m := none } (Clock.single 22000)).2.kv =
        (checkIPRateLimit aliceSend.ipAddress busyState.kv busyState.heap 22000).2 :=
  have h := missing_parameter_request_effect busyState { aliceSend with m := none }
    (Clock.single 22000) (by decide) (Or.inr (by decide))
  ⟨h.2.2.1, h.2.2.2.1⟩

/-- C8 (the claim fails at the boundary): after the join and two messages the sub-record of
`alice` has count 2 and `lastMessageTime` 2000; a message at 17000, exactly 15000 ms later,
is accepted and persists the username count 1, not 3. -/
theorem username_count_resets_at_boundary :
    ((afterSends 2).kv.user (dataKey aliceSend.ipAddress) "alice").map UserData.count =
        some (.num 2) ∧
      ((afterSends 2).kv.user (dataKey aliceSend.ipAddress) "alice").map
        UserData.lastMessageTime = some (.num 2000) ∧
      (17000 : Int) - 2000 = 15000 ∧
      (fetchSend (afterSends 2) aliceSend (Clock.single 17000)).1 = Response.messageSent ∧
      ((fetchSend (afterSends 2) aliceSend (Clock.single 17000)).2.kv.user
        (dataKey aliceSend.ipAddress) "alice").map UserData.count = some (.num 1) ∧
      ((fetchSend (afterSends 2) aliceSend (Clock.single 17000)).2.kv.user
        (dataKey aliceSend.ipAddress) "alice").map UserData.count ≠ some (.num (2 + 1)) := by
  decide

/-- C8 (amended): on `/send`, for a stored username sub-record with numeric count `c` and
`lastMessageTime` `l`, a request that reaches the handler at clock reading `now` persists the
sub-record with `lastMessageTime = now` and with `count = c + 1` if `now - l < 15000`, and
`count = 1` otherwise (the boundary `now - l = 15000` included). -/
theorem username_window_update (w : World) (req : Request) (clk : Clock)
    (user message : String) (d0 : Data) (us : String → Option UserData) (ud : UserData)
    (c l : Int)
    (hban : isIPBanned req.ipAddress w.kv = false)
    (hpre : (checkIPRateLimit req.ipAddress w.kv w.heap clk.pre).1 = false)
    (hu : req.u = some user) (hune : user ≠ "") (hm : req.m = some message)
    (hmne : message ≠ "")
    (h0 : w.kv.data (dataKey req.ipAddress) = some d0) (hus : d0.users = some us)
    (hud : us user = some ud) (hc : ud.count = .num c) (hl : ud.lastMessageTime = .num l) :
    ((fetchSend w req clk).2.kv.user (dataKey req.ipAddress) user).map UserData.count =
        some (.num (if (clk.now : Int) - l < 15000 then c + 1 else 1)) ∧
      ((fetchSend w req clk).2.kv.user (dataKey req.ipAddress) user).map
        UserData.lastMessageTime = some (.num clk.now) := by
  have hs := checkIPRateLimit_stored req.ipAddress w.kv w.heap clk.pre d0 h0
  have hus1 : d0.json.users = some (fun k => (us k).map UserData.json) := by
    simp [Data.json, hus]
  have hud1 : ensureUser (fun k => (us k).map UserData.json) w.heap user user =
      some ud.json := by
    rw [ensureUser_own _ w.heap user ud.json (by simp [hud])]
    simp [hud]
  have hcu : windowCount clk.now
      (ud.json.count.orInherited w.heap.objectPrototype.count)
      (ud.json.lastMessageTime.orInherited w.heap.objectPrototype.lastMessageTime) =
      .num (if (clk.now : Int) - l < 15000 then c + 1 else 1) := by
    by_cases hw : (clk.now : Int) - l < 15000 <;>
      simp [UserData.json, hc, hl, windowCount, JSVal.sub, JSVal.lt, JSVal.add,
        JSVal.toNumber, hw]
  generalize (if (clk.now : Int) - l < 15000 then c + 1 else 1) = n at hcu ⊢
  rw [fetchSend_counters w req clk user message _ _ hban hpre hu hune hm hmne hs hus1]
  generalize hca : windowCount clk.now
    (JSVal.orInherited _ w.heap.objectPrototype.count)
    (JSVal.orInherited _ w.heap.objectPrototype.lastMessageTime) = ca
  rw [sendCounters_own w _ _ _ _ user message clk ud.json (.num n) ca hud1 hcu hca]
  split <;> simp [KV.user, KV.get, KV.put, Data.json, setUser, UserData.json]

/-- Witness of C8 (amended): `alice` in `busyState` (count 2, last counted at 21000) sends at
22000 and at 36000; the first is inside the window, the second exactly at its end. -/
theorem username_window_update_witness :
    ((fetchSend busyState aliceSend (Clock.single 22000)).2.kv.user
        (dataKey aliceSend.ipAddress) "alice").map UserData.count = some (.num 3) ∧
      ((fetchSend busyState aliceSend ⟨22000, 36000, 36000⟩).2.kv.user
        (dataKey aliceSend.ipAddress) "alice").map UserData.count = some (.num 1) :=
  ⟨(username_window_update busyState aliceSend (Clock.single 22000) "alice" "hi" _ busyUsers
      _ 2 21000 (by decide) (by decide) rfl (by decide) rfl (by decide) rfl rfl rfl rfl rfl).1,
   (username_window_update busyState aliceSend ⟨22000, 36000, 36000⟩ "alice" "hi" _ busyUsers
      _ 2 21000 (by decide) (by decide) rfl (by decide) rfl (by decide) rfl rfl rfl rfl rfl).1⟩

/-- C10: `/send` is not idempotent.  For a non-banned address with a stored record whose
`count` and `lastMessageTime` are numbers, two successive evaluations with the same address,
username, message and clock reading both rewrite the record (the first changes its count or
its `lastMessageTime`, the second its count), and the address count persisted by the second
is strictly greater than the one persisted by the first.  No assumption is needed on the
`users` map or on the parameters. -/
theorem send_is_not_idempotent (w : World) (req : Request) (now : Nat) (d0 : Data)
    (c l : Int) (hban : isIPBanned req.ipAddress w.kv = false)
    (h0 : w.kv.data (dataKey req.ipAddress) = some d0)
    (hc : d0.count = .num c) (hl : d0.lastMessageTime = .num l) :
    ∃ n1 n2 : Int,
      ((fetchSend w req (Clock.single now)).2.kv.get (dataKey req.ipAddress)).map Data.count =
        some (.num n1) ∧
      ((fetchSend w req (Clock.single now)).2.kv.get (dataKey req.ipAddress)).map
        Data.lastMessageTime = some (.num now) ∧
      ((fetchSend (fetchSend w req (Clock.single now)).2 req (Clock.single now)).2.kv.get
        (dataKey req.ipAddress)).map Data.count = some (.num n2) ∧
      (JSVal.num n1 ≠ d0.count ∨ JSVal.num now ≠ d0.lastMessageTime) ∧
      n1 < n2 := by
  obtain ⟨n1, e1, e1t, lo1, -, hb1⟩ := fetchSend_single_address w req now d0 c l hban h0 hc hl
  cases hd1 : (fetchSend w req (Clock.single now)).2.kv.data (dataKey req.ipAddress) with
  | none => simp [KV.get, hd1] at e1
  | some d1 =>
    have hc1 : d1.count = .num n1 := by simpa [KV.get, hd1] using e1
    have hl1 : d1.lastMessageTime = .num now := by simpa [KV.get, hd1] using e1t
    obtain ⟨n2, e2, -, lo2, -, -⟩ :=
      fetchSend_single_address (fetchSend w req (Clock.single now)).2 req now d1 n1 now hb1 hd1
        hc1 hl1
    refine ⟨n1, n2, e1, e1t, e2, ?_, ?_⟩
    · rw [hc, hl]
      by_cases hw : (now : Int) - l > 15000
      · right
        intro h
        injection h with h
        omega
      · left
        intro h
        injection h with h
        simp [hw] at lo1
        omega
    · simp at lo2
      omega

/-- Witness of C10: the request of `alice` at 22000, twice, in `busyState`. -/
theorem send_is_not_idempotent_witness :
    ∃ n1 n2 : Int,
      ((fetchSend busyState aliceSend (Clock.single 22000)).2.kv.get
        (dataKey aliceSend.ipAddress)).map Data.count = some (.num n1) ∧
      ((fetchSend busyState aliceSend (Clock.single 22000)).2.kv.get
        (dataKey aliceSend.ipAddress)).map Data.lastMessageTime = some (.num 22000) ∧
      ((fetchSend (fetchSend busyState aliceSend (Clock.single 22000)).2 aliceSend
        (Clock.single 22000)).2.kv.get (dataKey aliceSend.ipAddress)).map Data.count =
        some (.num n2) ∧
      (JSVal.num n1 ≠ .num 4 ∨ JSVal.num 22000 ≠ .num 21000) ∧
      n1 < n2 :=
  send_is_not_idempotent busyState aliceSend 22000
    { users := some busyUsers, count := .num 4, lastMessageTime := .num 21000,
      suspendedUntil := .undefined } 4 21000 (by decide) rfl rfl rfl

end V8

/-! ## Properties of the ban list, of `/join` and of the texts of V8.1.0 -/

namespace V8

/-- C12: `isIPBanned` answers `false` for every address when no value is stored under the
ban-list key, and when a list is stored it answers `true` exactly for the elements of that
list. -/
theorem isIPBanned_spec (ip : Option String) (l : List (Option String))
    (data : String → Option Data) :
    isIPBanned ip { bannedIPs := none, data := data } = false ∧
      (isIPBanned ip { bannedIPs := some l, data := data } = true ↔ ip ∈ l) := by
  simp [isIPBanned]

/-- C13 (evaluation of the code): `/join` consults neither the ban list nor the rate limiter.
The address `198.51.100.9` is on the ban list and its `/send` is answered 403 without a row,
yet its `/join` is answered 200 and appends the row `[mallory] has joined the chat` to the
message table. -/
theorem banned_address_join_appends_row :
    isIPBanned malloryJoin.ipAddress bannedWorld.kv = true ∧
      (fetchSend bannedWorld { malloryJoin with m := some "hi" } (Clock.single 5)).1 =
        Response.banned ∧
      (fetchSend bannedWorld { malloryJoin with m := some "hi" } (Clock.single 5)).2.db =
        bannedWorld.db ∧
      (fetchJoin bannedWorld malloryJoin 5).1 = Response.joined "mallory" ∧
      (fetchJoin bannedWorld malloryJoin 5).1.status = 200 ∧
      (fetchJoin bannedWorld malloryJoin 5).2.db =
        bannedWorld.db ++
          [{ user := "system", message := "[mallory] has joined the chat", timestamp := 5 }] := by
  decide

/-- C14 (evaluation of the code): the first `/send` from an address without a record raises
an error instead of creating the record lazily.  The response is the uncaught `TypeError`,
no message is stored, and the record left behind is the one written by `checkIPRateLimit`:
count 1, no `users` map, hence no sub-record for the username. -/
theorem fresh_address_send_raises :
    World.empty.kv.get (dataKey aliceSend.ipAddress) = none ∧
      isIPBanned aliceSend.ipAddress World.empty.kv = false ∧
      (fetchSend World.empty aliceSend (Clock.single 1700000000000)).1 = Response.typeError ∧
      (fetchSend World.empty aliceSend (Clock.single 1700000000000)).1 ≠
        Response.messageSent ∧
      (fetchSend World.empty aliceSend (Clock.single 1700000000000)).2.db = [] ∧
      ((fetchSend World.empty aliceSend (Clock.single 1700000000000)).2.kv.get
        (dataKey aliceSend.ipAddress)).map Data.count = some (.num 1) ∧
      ((fetchSend World.empty aliceSend (Clock.single 1700000000000)).2.kv.get
        (dataKey aliceSend.ipAddress)).map (fun d => d.users.isSome) = some false ∧
      (fetchSend World.empty aliceSend (Clock.single 1700000000000)).2.kv.user
        (dataKey aliceSend.ipAddress) "alice" = none := by
  refine ⟨rfl, by decide, by decide, by decide, by decide, by decide, by decide, by decide⟩

/-- C19 (evaluation of the code): the suspension announced as "6 minute(s)" lasts 90 seconds.
In `busyState` the request at 22000 is answered "You are suspended from sending messages for
6 minute(s). Please check back in 1 minute(s) and 30 second(s)" and persists
`suspendedUntil = 112000`, that is `now + 6 * 15000`, not `now + 6 * 60000`. -/
theorem announced_minutes_are_quarter_minutes :
    (fetchSend busyState aliceSend (Clock.single 22000)).1 =
        Response.suspended (.num 6) (TimeText.minutesSeconds 1 30) ∧
      ((fetchSend busyState aliceSend (Clock.single 22000)).2.kv.get
        (dataKey aliceSend.ipAddress)).map Data.suspendedUntil = some (.num 112000) ∧
      (112000 : Int) - 22000 = 6 * 15000 ∧
      (112000 : Int) - 22000 ≠ 6 * 60000 := by
  decide

end V8

namespace V7

open V8

/-- C17 (evaluation of the code): in V7 `/join` stamps `joinTime` only when it creates the
sub-record.  `alice` has sent a message before joining, so `/send` has created her sub-record
without `joinTime` (lines 36-38); her `/join` at 2000 is answered 200 and the sub-record it
persists still has no `joinTime`. -/
theorem join_after_send_leaves_no_joinTime :
    (sentBeforeJoin.kv.user (dataKey aliceRequest.ipAddress) "alice").map UserData.joinTime =
        some .undefined ∧
      (fetchJoin sentBeforeJoin aliceRequest 2000).1 = Response.joined "alice" ∧
      (fetchJoin sentBeforeJoin aliceRequest 2000).1.status = 200 ∧
      ((fetchJoin sentBeforeJoin aliceRequest 2000).2.kv.user (dataKey aliceRequest.ipAddress)
        "alice").map UserData.joinTime = some .undefined ∧
      ((fetchJoin sentBeforeJoin aliceRequest 2000).2.kv.user (dataKey aliceRequest.ipAddress)
        "bob").map UserData.joinTime = some (.num 0) := by
  decide

end V7

/-! ## Time texts, double counting and the suspension check -/

namespace V8

/-- C15 (the claim fails from one day on): for a difference of exactly 24 hours the parts are
all 0, so that the text is "0 second(s)" and the parts denote 0 seconds instead of 86400. -/
theorem formatTimeUntil_wraps_after_a_day :
    (86400000 : Int) - 0 > 0 ∧
      hoursPart 86400000 = 0 ∧ minutesPart 86400000 = 0 ∧ secondsPart 86400000 = 0 ∧
      hoursPart 86400000 * 3600 + minutesPart 86400000 * 60 + secondsPart 86400000 ≠
        86400000 / 1000 ∧
      formatTimeUntil (.num 86400000) 0 = TimeText.seconds 0 := by
  decide

/-- C15 (amended): for a timestamp and a clock reading with `d = timestamp - now > 0`, the
parts computed by `formatTimeUntil` satisfy `0 <= seconds < 60`, `0 <= minutes < 60`,
`0 <= hours < 24` and `hours * 3600 + minutes * 60 + seconds = floor(d / 1000) mod 86400`;
when `d` is less than a day (86400000 ms) this is `floor(d / 1000)`.  The text shows the
hours and minutes, or the minutes and seconds, or the seconds, of these parts. -/
theorem formatTimeUntil_parts (timestamp : Int) (now : Nat) (hd : 0 < timestamp - now) :
    0 ≤ secondsPart (timestamp - now) ∧ secondsPart (timestamp - now) < 60 ∧
      0 ≤ minutesPart (timestamp - now) ∧ minutesPart (timestamp - now) < 60 ∧
      0 ≤ hoursPart (timestamp - now) ∧ hoursPart (timestamp - now) < 24 ∧
      hoursPart (timestamp - now) * 3600 + minutesPart (timestamp - now) * 60 +
        secondsPart (timestamp - now) = (timestamp - now) / 1000 % 86400 ∧
      (timestamp - now < 86400000 →
        hoursPart (timestamp - now) * 3600 + minutesPart (timestamp - now) * 60 +
          secondsPart (timestamp - now) = (timestamp - now) / 1000) ∧
      formatTimeUntil (.num timestamp) now =
        (if hoursPart (timestamp - now) > 0 then
          TimeText.hoursMinutes (hoursPart (timestamp - now)) (minutesPart (timestamp - now))
        else if minutesPart (timestamp - now) > 0 then
          TimeText.minutesSeconds (minutesPart (timestamp - now))
            (secondsPart (timestamp - now))
        else TimeText.seconds (secondsPart (timestamp - now))) := by
  generalize hdef : timestamp - now = d at hd ⊢
  have hfmt : ¬ d ≤ 0 := by omega
  refine ⟨?_, ?_, ?_, ?_, ?_, ?_, ?_, ?_, ?_⟩
  · simp only [secondsPart]; omega
  · simp only [secondsPart]; omega
  · simp only [minutesPart]; omega
  · simp only [minutesPart]; omega
  · simp only [hoursPart]; omega
  · simp only [hoursPart]; omega
  · simp only [secondsPart, minutesPart, hoursPart]; omega
  · simp only [secondsPart, minutesPart, hoursPart]; omega
  · simp [formatTimeUntil, JSVal.sub, JSVal.toNumber, hdef, hfmt]


/-- Witness of C15 (amended): the suspension that ends at 112000, read at 22000, is shown as
1 minute and 30 seconds, which denotes the 90 seconds that remain. -/
theorem formatTimeUntil_parts_witness :
    hoursPart ((112000 : Int) - (22000 : Nat)) * 3600 +
        minutesPart ((112000 : Int) - (22000 : Nat)) * 60 +
        secondsPart ((112000 : Int) - (22000 : Nat)) = 90 ∧
      formatTimeUntil (.num 112000) 22000 = TimeText.minutesSeconds 1 30 :=
  have h := formatTimeUntil_parts 112000 22000 (by decide)
  ⟨h.2.2.2.2.2.2.2.1 (by decide), h.2.2.2.2.2.2.2.2⟩

/-- C20 (evaluation of the code): a request that passes the pre-check can be counted once
only.  In `pollutedWorld` an earlier request with the username `__proto__`, answered 200,
has set `count` and `lastMessageTime` on `Object.prototype`, and the stored record of the
address has the
numeric count 1, the `lastMessageTime` 1000 and a `users` map without the key `count`.
The request of the username `count` at 2000 passes the ban check and the pre-check (which
persists the count 2); in the handler `data.users["count"]` finds the inherited number 1,
lines 36-38 create nothing, and the assignment to a property of that number raises a
`TypeError`.  The count persisted by the request is 2, not `1 + 2 = 3`. -/
theorem inherited_number_username_is_counted_once :
    (fetchSend joinedWorld protoRequest (Clock.single 1000)).1 = Response.messageSent ∧
      pollutedWorld.heap.objectPrototype.count = .num 1 ∧
      pollutedWorld.heap.objectPrototype.lastMessageTime = .num 1000 ∧
      (pollutedWorld.kv.get (dataKey countRequest.ipAddress)).map Data.count =
        some (.num 1) ∧
      (pollutedWorld.kv.get (dataKey countRequest.ipAddress)).map Data.lastMessageTime =
        some (.num 1000) ∧
      (pollutedWorld.kv.get (dataKey countRequest.ipAddress)).map
        (fun d => d.users.isSome) = some true ∧
      pollutedWorld.kv.user (dataKey countRequest.ipAddress) "count" = none ∧
      isIPBanned countRequest.ipAddress pollutedWorld.kv = false ∧
      (checkIPRateLimit countRequest.ipAddress pollutedWorld.kv pollutedWorld.heap 2000).1 =
        false ∧
      (fetchSend pollutedWorld countRequest (Clock.single 2000)).1 = Response.typeError ∧
      ((fetchSend pollutedWorld countRequest (Clock.single 2000)).2.kv.get
        (dataKey countRequest.ipAddress)).map Data.count = some (.num 2) ∧
      ((fetchSend pollutedWorld countRequest (Clock.single 2000)).2.kv.get
        (dataKey countRequest.ipAddress)).map Data.count ≠
        some (.num (if (2000 : Int) - 1000 ≤ 15000 then 1 + 2 else 2)) ∧
      (fetchSend pollutedWorld countRequest (Clock.single 2000)).2.kv.user
        (dataKey countRequest.ipAddress) "count" = none := by
  decide

/-- Double counting at the address scope, for the requests that do not raise.  For a
non-banned address whose stored record has a numeric `count` `c`, a numeric
`lastMessageTime` `l` and a `users` map, and a request with non-empty username and message
that passes the pre-check, the clock reading `now` being the same in the pre-check and in
the handler: unless the handler raises the `TypeError`, the persisted address count is
`c + 2` when `now - l <= 15000` and `2` otherwise.  For a stored sub-record with numeric
count `uc` and `lastMessageTime` `ul` the username count becomes `uc + 1` or `1`, which for
`uc >= 0` is a rise of at most 1; for a username that the lookup does not find at all it
becomes 1. -/
theorem address_scope_counts_twice (w : World) (req : Request) (now fmt : Nat)
    (user message : String) (d0 : Data) (us : String → Option UserData) (c l : Int)
    (hban : isIPBanned req.ipAddress w.kv = false)
    (h0 : w.kv.data (dataKey req.ipAddress) = some d0) (hus : d0.users = some us)
    (hc : d0.count = .num c) (hl : d0.lastMessageTime = .num l)
    (hu : req.u = some user) (hune : user ≠ "") (hm : req.m = some message)
    (hmne : message ≠ "")
    (hpre : (checkIPRateLimit req.ipAddress w.kv w.heap now).1 = false) :
    ((fetchSend w req ⟨now, now, fmt⟩).1 ≠ Response.typeError →
        ((fetchSend w req ⟨now, now, fmt⟩).2.kv.get (dataKey req.ipAddress)).map Data.count =
          some (.num (if (now : Int) - l ≤ 15000 then c + 2 else 2))) ∧
      (∀ (ud : UserData) (uc ul : Int), us user = some ud → ud.count = .num uc →
        ud.lastMessageTime = .num ul →
        ((fetchSend w req ⟨now, now, fmt⟩).2.kv.user (dataKey req.ipAddress) user).map
          UserData.count = some (.num (if (now : Int) - ul < 15000 then uc + 1 else 1)) ∧
        (0 ≤ uc → (if (now : Int) - ul < 15000 then uc + 1 else 1) ≤ uc + 1)) ∧
      (lookupUser (fun k => (us k).map UserData.json) w.heap user = Found.missing →
        ((fetchSend w req ⟨now, now, fmt⟩).2.kv.user (dataKey req.ipAddress) user).map
          UserData.count = some (.num 1)) := by
  have hs := checkIPRateLimit_numeric req.ipAddress w.kv w.heap now d0 c l h0 hc hl
  have hus1 : d0.json.users = some (fun k => (us k).map UserData.json) := by
    simp [Data.json, hus]
  have e := fetchSend_counters w req ⟨now, now, fmt⟩ user message _ _ hban hpre hu hune hm
    hmne hs hus1
  refine ⟨?_, ?_, ?_⟩
  · intro hok
    rcases sendCounters_address w (checkIPRateLimit req.ipAddress w.kv w.heap now).2
      (dataKey req.ipAddress)
      { users := d0.json.users,
        count := .num (if (now : Int) - l > 15000 then 1 else c + 1),
        lastMessageTime := .num now, suspendedUntil := d0.suspendedUntil.json }
      (fun k => (us k).map UserData.json) user message ⟨now, now, fmt⟩ _ now rfl rfl
      with hty | ⟨k1, -, -, -⟩
    · exact absurd (by rw [e, hty]) hok
    · rw [e, k1]
      by_cases hg : (now : Int) - l ≤ 15000
      · have hg2 : ¬ ((now : Int) - l > 15000) := by omega
        simp [windowCount, JSVal.sub, JSVal.lt, JSVal.add, JSVal.toNumber, hg, hg2]
        omega
      · have hg2 : (now : Int) - l > 15000 := by omega
        simp [windowCount, JSVal.sub, JSVal.lt, JSVal.add, JSVal.toNumber, hg, hg2]
  · intro ud uc ul hud huc hul
    refine ⟨?_, by intro h0uc; split <;> omega⟩
    have hud1 : ensureUser (fun k => (us k).map UserData.json) w.heap user user =
        some ud.json := by
      rw [ensureUser_own _ w.heap user ud.json (by simp [hud])]
      simp [hud]
    have hcu : windowCount now
        (ud.json.count.orInherited w.heap.objectPrototype.count)
        (ud.json.lastMessageTime.orInherited w.heap.objectPrototype.lastMessageTime) =
        .num (if (now : Int) - ul < 15000 then uc + 1 else 1) := by
      by_cases hw : (now : Int) - ul < 15000 <;>
        simp [UserData.json, huc, hul, windowCount, JSVal.sub, JSVal.lt, JSVal.add,
          JSVal.toNumber, hw]
    generalize (if (now : Int) - ul < 15000 then uc + 1 else 1) = n at hcu ⊢
    obtain ⟨ca, hca⟩ : ∃ ca, windowCount now
        ((JSVal.num (if (now : Int) - l > 15000 then 1 else c + 1)).orInherited
          w.heap.objectPrototype.count)
        ((JSVal.num now).orInherited w.heap.objectPrototype.lastMessageTime) = ca := ⟨_, rfl⟩
    rw [e, sendCounters_own w _ _ _ _ user message ⟨now, now, fmt⟩ ud.json (.num n) ca hud1
      hcu hca]
    split <;> simp [KV.user, KV.get, KV.put, Data.json, setUser, UserData.json]
  · intro hmiss
    have hud1 : ensureUser (fun k => (us k).map UserData.json) w.heap user user =
        some { count := .num 0, lastMessageTime := .num 0, suspendedUntil := .num 0,
               joinTime := .undefined } := by
      simp [ensureUser, hmiss, Found.truthy, setUser]
    obtain ⟨ca, hca⟩ : ∃ ca, windowCount now
        ((JSVal.num (if (now : Int) - l > 15000 then 1 else c + 1)).orInherited
          w.heap.objectPrototype.count)
        ((JSVal.num now).orInherited w.heap.objectPrototype.lastMessageTime) = ca := ⟨_, rfl⟩
    rw [e, sendCounters_own w _ _ _ _ user message ⟨now, now, fmt⟩ _ (.num 1) ca hud1
      (by simp [windowCount, JSVal.sub, JSVal.lt, JSVal.add, JSVal.toNumber]) hca]
    split <;> simp [KV.user, KV.get, KV.put, Data.json, setUser, UserData.json]

/-- An instance of the preceding statement: `alice` in `busyState` (address count 4, last
counted at 21000) sends at 22000; the address count goes to 6 and her own count from 2 to
3. -/
theorem address_scope_counts_twice_witness :
    ((fetchSend busyState aliceSend ⟨22000, 22000, 22000⟩).2.kv.get
        (dataKey aliceSend.ipAddress)).map Data.count = some (.num 6) ∧
      ((fetchSend busyState aliceSend ⟨22000, 22000, 22000⟩).2.kv.user
        (dataKey aliceSend.ipAddress) "alice").map UserData.count = some (.num 3) :=
  have h := address_scope_counts_twice busyState aliceSend 22000 22000 "alice" "hi"
    { users := some busyUsers, count := .num 4, lastMessageTime := .num 21000,
      suspendedUntil := .undefined } busyUsers 4 21000 (by decide) rfl rfl rfl rfl rfl
    (by decide) rfl (by decide) (by decide)
  ⟨h.1 (by decide), (h.2.1 _ 2 21000 rfl rfl rfl).1⟩

end V8

namespace V3

/-- C16: the suspension check of V3 `/send`.  For a stored record with numeric fields, a
request with non-empty username and message made while `suspendedUntil > now` is answered
429 and leaves the namespace and the message table as they were; when
`suspendedUntil <= now` the request is not rejected by the suspension check: its counter is
updated (`count + 1` inside the window of 60000 ms, `1` otherwise) and `lastMessageTime`
becomes `now`. -/
theorem suspension_check (w : World) (user msg : String) (now : Nat) (c l s : Int)
    (hu : user ≠ "") (hm : msg ≠ "")
    (h : w.kv (userKey user) =
      some { count := .num c, lastMessageTime := .num l, suspendedUntil := .num s }) :
    ((now : Int) < s →
        fetchSend w { u := some user, m := some msg } now =
          (Response.suspendedUntil (.num s), w) ∧
        (fetchSend w { u := some user, m := some msg } now).1.status = 429) ∧
      (s ≤ (now : Int) →
        (∀ t, (fetchSend w { u := some user, m := some msg } now).1 ≠
          Response.suspendedUntil t) ∧
        ((fetchSend w { u := some user, m := some msg } now).2.kv (userKey user)).map
          UserData.count = some (.num (if (now : Int) - l < 60000 then c + 1 else 1)) ∧
        ((fetchSend w { u := some user, m := some msg } now).2.kv (userKey user)).map
          UserData.lastMessageTime = some (.num now)) := by
  constructor
  · intro hlt
    have h1 : s > (now : Int) := hlt
    simp [fetchSend, paramPresent, hu, hm, h, JSVal.gt, JSVal.toNumber, h1, Response.status]
  · intro hle
    have h1 : ¬ (s > (now : Int)) := by omega
    by_cases hw : (now : Int) - l < 60000 <;> by_cases hc5 : c + 1 > 5 <;>
      simp [fetchSend, paramPresent, hu, hm, h, JSVal.gt, JSVal.lt, JSVal.sub, JSVal.add,
        JSVal.mul, JSVal.toNumber, h1, hw, hc5, put, UserData.json]

/-- Witness of C16: after the six requests of the scenario the username `A` is suspended
until 410000; a request at 60000 is rejected and changes nothing, a request at 410000 is
counted. -/
theorem suspension_check_witness :
    fetchSend (scenario 6) { u := some "A", m := some "m" } 60000 =
        (Response.suspendedUntil (.num 410000), scenario 6) ∧
      ((fetchSend (scenario 6) { u := some "A", m := some "m" } 410000).2.kv
        (userKey "A")).map UserData.count = some (.num 1) :=
  ⟨((suspension_check (scenario 6) "A" "m" 60000 6 50000 410000 (by decide) (by decide)
      (by decide)).1 (by decide)).1,
   ((suspension_check (scenario 6) "A" "m" 410000 6 50000 410000 (by decide) (by decide)
      (by decide)).2 (by decide)).2.1⟩

end V3

/-! ## The frame of `/join` in V8.1.0 -/

namespace V8

/-- C18 (evaluation of the code): `/join` with a username that names a member of
`Object.prototype` persists no `joinTime`.  In `busyState` the record of the address has a
`users` map with the only key `alice`.  The request `/join?u=constructor` at 30000 is
answered 200 and appends the row of the join, but `data.users["constructor"]` has found the
inherited function `Object`, so the else branch of lines 117-120 sets `joinTime` on that
function: the persisted `users` map has no entry for the username.  With the username
`__proto__` the `joinTime` is set on `Object.prototype` itself. -/
theorem inherited_username_join_persists_nothing :
    (busyState.kv.get (dataKey constructorRequest.ipAddress)).map
        (fun d => d.users.isSome) = some true ∧
      (fetchJoin busyState constructorRequest 30000).1 = Response.joined "constructor" ∧
      (fetchJoin busyState constructorRequest 30000).1.status = 200 ∧
      (fetchJoin busyState constructorRequest 30000).2.kv.user
        (dataKey constructorRequest.ipAddress) "constructor" = none ∧
      ((fetchJoin busyState constructorRequest 30000).2.kv.user
        (dataKey constructorRequest.ipAddress) "constructor").map UserData.joinTime ≠
        some (.num 30000) ∧
      ((fetchJoin busyState constructorRequest 30000).2.heap.functions
        "constructor").joinTime = .num 30000 ∧
      (fetchJoin busyState constructorRequest 30000).2.db =
        busyState.db ++
          [{ user := "system", message := "[constructor] has joined the chat",
             timestamp := 30000 }] ∧
      (fetchJoin busyState protoRequest 30000).1.status = 200 ∧
      (fetchJoin busyState protoRequest 30000).2.kv.user
        (dataKey protoRequest.ipAddress) "__proto__" = none ∧
      (fetchJoin busyState protoRequest 30000).2.heap.objectPrototype.joinTime =
        .num 30000 := by
  decide

/-- The frame of `/join` for a username that is an own property of `data.users` or is not
found at all by the lookup.  For a stored record with a `users` map (a JSON value:
serialising it gives it back) and a non-empty username `u`, the request is answered 200
and persists `users[u].joinTime = now`; the `count`, `lastMessageTime` and
`suspendedUntil` of the address record are unchanged, an existing `users[u]` keeps its own
`count`, `lastMessageTime` and `suspendedUntil`, the sub-record of every other username is
unchanged, and so are the ban list, the records under the other keys and the heap. -/
theorem join_only_stamps_joinTime (w : World) (req : Request) (now : Nat) (u : String)
    (d0 : Data) (us : String → Option UserData)
    (hu : req.u = some u) (hune : u ≠ "")
    (h0 : w.kv.data (dataKey req.ipAddress) = some d0) (hus : d0.users = some us)
    (hjson : d0.json = d0)
    (hfound : (∃ ud, us u = some ud) ∨ lookupUser us w.heap u = Found.missing) :
    (fetchJoin w req now).1 = Response.joined u ∧ (fetchJoin w req now).1.status = 200 ∧
      ((fetchJoin w req now).2.kv.user (dataKey req.ipAddress) u).map UserData.joinTime =
        some (.num now) ∧
      ((fetchJoin w req now).2.kv.get (dataKey req.ipAddress)).map Data.count =
        some d0.count ∧
      ((fetchJoin w req now).2.kv.get (dataKey req.ipAddress)).map Data.lastMessageTime =
        some d0.lastMessageTime ∧
      ((fetchJoin w req now).2.kv.get (dataKey req.ipAddress)).map Data.suspendedUntil =
        some d0.suspendedUntil ∧
      (∀ ud, us u = some ud →
        (fetchJoin w req now).2.kv.user (dataKey req.ipAddress) u =
          some { ud with joinTime := .num now }) ∧
      (∀ k, k ≠ u → (fetchJoin w req now).2.kv.user (dataKey req.ipAddress) k = us k) ∧
      (fetchJoin w req now).2.kv.bannedIPs = w.kv.bannedIPs ∧
      (∀ k, k ≠ dataKey req.ipAddress → (fetchJoin w req now).2.kv.data k = w.kv.data k) ∧
      (fetchJoin w req now).2.heap = w.heap := by
  have hjc : d0.count.json = d0.count := congrArg Data.count hjson
  have hjl : d0.lastMessageTime.json = d0.lastMessageTime :=
    congrArg Data.lastMessageTime hjson
  have hjs : d0.suspendedUntil.json = d0.suspendedUntil := congrArg Data.suspendedUntil hjson
  have hju : ∀ k, (us k).map UserData.json = us k := by
    intro k
    have h1 : d0.json.users = d0.users := congrArg Data.users hjson
    rw [hus] at h1
    simp only [Data.json, hus, Option.map_some', Option.some.injEq] at h1
    exact congrFun h1 k
  have e : fetchJoin w req now =
      (Response.joined u,
        { kv := w.kv.put (dataKey req.ipAddress)
            { d0 with
              users := some (setUser us u
                (match us u with
                 | none => { UserData.absent with joinTime := .num now }
                 | some ud => { ud with joinTime := .num now })) },
          db := w.db ++
            [{ user := "system", message := "[" ++ u ++ "] has joined the chat",
               timestamp := now }],
          heap := w.heap }) := by
    rcases hfound with ⟨ud, hud⟩ | hmiss
    · simp [fetchJoin, paramPresent, hune, hu, KV.get, h0, hus,
        lookupUser_own us w.heap u ud hud, Found.truthy, Found.target, readUser, writeUser,
        hud]
    · have hnone : us u = none := by
        cases hx : us u with
        | none => rfl
        | some ud => rw [lookupUser_own us w.heap u ud hx] at hmiss; cases hmiss
      simp [fetchJoin, paramPresent, hune, hu, KV.get, h0, hus, hmiss, Found.truthy, hnone]
  rw [e]
  refine ⟨rfl, rfl, ?_, ?_, ?_, ?_, ?_, ?_, rfl, ?_, rfl⟩
  · cases hud : us u <;>
      simp [KV.user, KV.get, KV.put, Data.json, setUser, UserData.json, UserData.absent]
  · simp [KV.get, KV.put, Data.json, hjc]
  · simp [KV.get, KV.put, Data.json, hjl]
  · simp [KV.get, KV.put, Data.json, hjs]
  · intro ud hud
    have h2 := hju u
    rw [hud] at h2
    simp only [Option.map_some', Option.some.injEq] at h2
    have h2c : ud.count.json = ud.count := congrArg UserData.count h2
    have h2l : ud.lastMessageTime.json = ud.lastMessageTime :=
      congrArg UserData.lastMessageTime h2
    have h2s : ud.suspendedUntil.json = ud.suspendedUntil :=
      congrArg UserData.suspendedUntil h2
    simp [KV.user, KV.get, KV.put, Data.json, setUser, hud, UserData.json, h2c, h2l, h2s]
  · intro k hk
    simp [KV.user, KV.get, KV.put, Data.json, setUser, hk, hju]
  · intro k hk
    simp [KV.put, hk]

/-- An instance of the preceding statement: `alice`, who has a sub-record in `busyState`,
and `carol`, who has none, join at 30000; the address count stays 4. -/
theorem join_only_stamps_joinTime_witness :
    (fetchJoin busyState aliceSend 30000).2.kv.user (dataKey aliceSend.ipAddress) "alice" =
        some { count := .num 2, lastMessageTime := .num 21000, suspendedUntil := .undefined,
               joinTime := .num 30000 } ∧
      ((fetchJoin busyState { aliceSend with u := some "carol" } 30000).2.kv.user
        (dataKey aliceSend.ipAddress) "carol").map UserData.joinTime = some (.num 30000) ∧
      ((fetchJoin busyState { aliceSend with u := some "carol" } 30000).2.kv.get
        (dataKey aliceSend.ipAddress)).map Data.count = some (.num 4) :=
  have hj : Data.json
      { users := some busyUsers, count := .num 4, lastMessageTime := .num 21000,
        suspendedUntil := .undefined } =
      { users := some busyUsers, count := .num 4, lastMessageTime := .num 21000,
        suspendedUntil := .undefined } := by
    have hu : (fun k => (busyUsers k).map UserData.json) = busyUsers := by
      funext k
      unfold busyUsers
      split <;> rfl
    simp [Data.json, hu]
  have ha := join_only_stamps_joinTime busyState aliceSend 30000 "alice" _ busyUsers rfl
    (by decide) rfl rfl hj (Or.inl ⟨_, rfl⟩)
  have hc := join_only_stamps_joinTime busyState { aliceSend with u := some "carol" } 30000
    "carol" _ busyUsers rfl (by decide) rfl rfl hj (Or.inr (by decide))
  ⟨ha.2.2.2.2.2.2.1 _ rfl, hc.2.2.1, hc.2.2.2.1⟩

end V8

/-! ## The records reachable in V3 -/

namespace V3

theorem fetchSend_missing (w : World) (req : Request) (now : Nat)
    (h : (!paramPresent req.u || !paramPresent req.m) = true) :
    fetchSend w req now = (Response.missingUserOrMessage, w) := by
  simp only [fetchSend, h, if_true]

theorem fetchSend_suspended (w : World) (user msg : String) (now : Nat) (c lmt su : Int)
    (hu : user ≠ "") (hm : msg ≠ "")
    (h : w.kv (userKey user) =
      some { count := .num c, lastMessageTime := .num lmt, suspendedUntil := .num su })
    (hsu : (now : Int) < su) :
    fetchSend w { u := some user, m := some msg } now =
      (Response.suspendedUntil (.num su), w) := by
  have h1 : su > (now : Int) := hsu
  simp [fetchSend, paramPresent, hu, hm, h, JSVal.gt, JSVal.toNumber, h1]

theorem fetchSend_reset (w : World) (user msg : String) (now : Nat) (c lmt su : Int)
    (hu : user ≠ "") (hm : msg ≠ "")
    (h : w.kv (userKey user) =
      some { count := .num c, lastMessageTime := .num lmt, suspendedUntil := .num su })
    (hsu : su ≤ now) (hwin : ¬ (now : Int) - lmt < 60000) :
    fetchSend w { u := some user, m := some msg } now =
      (Response.messageSent,
        { kv := put w.kv (userKey user)
            { count := .num 1, lastMessageTime := .num now, suspendedUntil := .num su },
          db := w.db ++ [(user, msg)] }) := by
  have h1 : ¬ (su > (now : Int)) := by omega
  simp [fetchSend, paramPresent, hu, hm, h, JSVal.gt, JSVal.lt, JSVal.sub, JSVal.toNumber,
    hwin, h1]

theorem counted_put (w : World) (key : String) (d : UserData) (hw : w.Counted)
    (hd : Counted d.json) : ∀ k e, put w.kv key d k = some e → Counted e := by
  intro k e hk
  by_cases hkey : k = key
  · simp [put, hkey] at hk
    rw [← hk]
    exact hd
  · simp [put, hkey] at hk
    exact hw k e hk

/-- What a request does to a `Counted` namespace: nothing, or one write of a `Counted`
record of the username, and the response is the violation exactly when that record has the
count 6, `lastMessageTime = now` and `suspendedUntil = now + 360000`. -/
theorem fetchSend_cases (w : World) (req : Request) (now : Nat) (hw : w.Counted) :
    ((fetchSend w req now).2 = w ∧ ∀ c, (fetchSend w req now).1 ≠ Response.suspended c) ∨
      ∃ user d, req.u = some user ∧ Counted d ∧ d.json = d ∧
        (fetchSend w req now).2.kv = put w.kv (userKey user) d ∧
        (∀ c, (fetchSend w req now).1 = Response.suspended c →
          c = .num 6 ∧
          d = { count := .num 6, lastMessageTime := .num now,
                suspendedUntil := .num (now + 360000) }) := by
  by_cases hp : (!paramPresent req.u || !paramPresent req.m) = true
  · left
    rw [fetchSend_missing w req now hp]
    exact ⟨rfl, fun c h => by cases h⟩
  · simp only [Bool.or_eq_true, Bool.not_eq_true', not_or, Bool.not_eq_false] at hp
    obtain ⟨user, hu, hune⟩ := (paramPresent_eq_true _).1 hp.1
    obtain ⟨msg, hm, hmne⟩ := (paramPresent_eq_true _).1 hp.2
    have hreq : req = { u := some user, m := some msg } := by
      cases req
      simp_all
    subst hreq
    cases hrec : w.kv (userKey user) with
    | none =>
      right
      rw [fetchSend_fresh w user msg now hune hmne hrec]
      exact ⟨user, _, rfl, ⟨1, now, 0, rfl, by omega, by omega, by omega⟩, rfl, rfl,
        fun c h => by cases h⟩
    | some d0 =>
      obtain ⟨c, l, s, hd0, hc1, hc6, hs⟩ := hw _ _ hrec
      subst hd0
      by_cases hsu : (now : Int) < s
      · left
        rw [fetchSend_suspended w user msg now c l s hune hmne hrec hsu]
        exact ⟨rfl, fun c h => by cases h⟩
      · right
        by_cases hwin : (now : Int) - l < 60000
        · have hc5 : c ≤ 5 := by
            by_contra hcon
            have : c = 6 := by omega
            have := hs this
            omega
          rw [fetchSend_counted w user msg now c l s hune hmne hrec (by omega) hwin]
          by_cases hv : c + 1 > 5
          · have hc : c = 5 := by omega
            subst hc
            simp only [hv, if_true]
            refine ⟨user, _, rfl, ⟨6, now, now + 60000 * (5 + 1), rfl, by omega, by omega,
              fun _ => by omega⟩, rfl, rfl, ?_⟩
            intro c' h
            injection h with h1
            subst h1
            norm_num
          · simp only [hv, if_false]
            exact ⟨user, _, rfl, ⟨c + 1, now, s, rfl, by omega, by omega, fun h => by omega⟩,
              rfl, rfl, fun c h => by cases h⟩
        · rw [fetchSend_reset w user msg now c l s hune hmne hrec (by omega) hwin]
          exact ⟨user, _, rfl, ⟨1, now, s, rfl, by omega, by omega, fun h => by omega⟩, rfl,
            rfl, fun c h => by cases h⟩

theorem counted_fetchSend (w : World) (req : Request) (now : Nat) (hw : w.Counted) :
    (fetchSend w req now).2.Counted := by
  rcases fetchSend_cases w req now hw with ⟨h, -⟩ | ⟨user, d, -, hd, hj, hkv, -⟩
  · rw [h]; exact hw
  · intro k e hk
    rw [hkv] at hk
    exact counted_put w (userKey user) d hw (by rw [hj]; exact hd) k e hk

theorem counted_empty : World.empty.Counted := by
  intro k d h
  simp [World.empty] at h

theorem counted_run (reqs : List (Request × Nat)) :
    ∀ w : World, w.Counted → (run w reqs).Counted := by
  induction reqs with
  | nil => intro w hw; exact hw
  | cons r rest ih =>
    intro w hw
    obtain ⟨req, now⟩ := r
    exact ih _ (counted_fetchSend w req now hw)

/-- Every violation in a `Counted` namespace persists the count 6 and a suspension of
360000 ms. -/
theorem violation_in_counted (w : World) (user msg : String) (now : Nat) (c : JSVal)
    (hw : w.Counted)
    (hv : (fetchSend w { u := some user, m := some msg } now).1 = Response.suspended c) :
    c = .num 6 ∧
      (fetchSend w { u := some user, m := some msg } now).2.kv (userKey user) =
        some { count := .num 6, lastMessageTime := .num now,
               suspendedUntil := .num (now + 360000) } := by
  rcases fetchSend_cases w { u := some user, m := some msg } now hw with
    ⟨-, h⟩ | ⟨user', d, hu', -, hj, hkv, h⟩
  · exact absurd hv (h c)
  · simp only [Option.some.injEq] at hu'
    subst hu'
    obtain ⟨hc, hd⟩ := h c hv
    refine ⟨hc, ?_⟩
    rw [hkv, put_same, hj, hd]

/-- C11 (the claim fails): the username `A` sends six requests from 0 to 50000 and, once the
suspension set by the sixth has ended at 410000, six more from 410000 to 460000.  The first
violation, at 50000, sets `suspendedUntil = 410000`; the five requests that follow the
suspension are accepted; the next violation, at 460000, sets `suspendedUntil = 820000`.
Both suspensions last 360000 ms: the second is not longer than the first. -/
theorem second_suspension_is_not_longer :
    (fetchSend (run World.empty (twoBursts.take 5)) { u := some "A", m := some "m" } 50000).1 =
        Response.suspended (.num 6) ∧
      ((run World.empty (twoBursts.take 6)).kv (userKey "A")).map UserData.suspendedUntil =
        some (.num 410000) ∧
      (fetchSend (run World.empty (twoBursts.take 6)) { u := some "A", m := some "m" }
        410000).1 = Response.messageSent ∧
      (fetchSend (run World.empty (twoBursts.take 7)) { u := some "A", m := some "m" }
        420000).1 = Response.messageSent ∧
      (fetchSend (run World.empty (twoBursts.take 8)) { u := some "A", m := some "m" }
        430000).1 = Response.messageSent ∧
      (fetchSend (run World.empty (twoBursts.take 9)) { u := some "A", m := some "m" }
        440000).1 = Response.messageSent ∧
      (fetchSend (run World.empty (twoBursts.take 10)) { u := some "A", m := some "m" }
        450000).1 = Response.messageSent ∧
      (fetchSend (run World.empty (twoBursts.take 11)) { u := some "A", m := some "m" }
        460000).1 = Response.suspended (.num 6) ∧
      ((run World.empty twoBursts).kv (userKey "A")).map UserData.suspendedUntil =
        some (.num 820000) ∧
      (410000 : Int) ≤ 460000 ∧
      ¬ ((820000 : Int) - 460000 > 410000 - 50000) := by
  decide

/-- C11 (amended): in V3, from the empty namespace and through any sequence of `/send`
requests, every violation persists the count 6 and sets `suspendedUntil` exactly 360000 ms
after its request; so when a first violation at `t1` sets `S1` and a later violation of the
same username at `t2` sets `S2`, the two suspensions have the same length:
`S2 - t2 = S1 - t1 = 360000`. -/
theorem suspensions_have_equal_length (reqs1 reqs2 : List (Request × Nat))
    (user m1 m2 : String) (t1 t2 : Nat) (c1 c2 : JSVal) (S1 S2 : Int)
    (hv1 : (fetchSend (run World.empty reqs1) { u := some user, m := some m1 } t1).1 =
      Response.suspended c1)
    (hS1 : ((fetchSend (run World.empty reqs1) { u := some user, m := some m1 } t1).2.kv
      (userKey user)).map UserData.suspendedUntil = some (.num S1))
    (hv2 : (fetchSend
      (run (fetchSend (run World.empty reqs1) { u := some user, m := some m1 } t1).2 reqs2)
      { u := some user, m := some m2 } t2).1 = Response.suspended c2)
    (hS2 : ((fetchSend
      (run (fetchSend (run World.empty reqs1) { u := some user, m := some m1 } t1).2 reqs2)
      { u := some user, m := some m2 } t2).2.kv (userKey user)).map UserData.suspendedUntil =
      some (.num S2)) :
    c1 = .num 6 ∧ c2 = .num 6 ∧ S1 - t1 = 360000 ∧ S2 - t2 = 360000 ∧
      S2 - t2 = S1 - t1 := by
  have hw1 : (run World.empty reqs1).Counted := counted_run reqs1 _ counted_empty
  have hw2 : (run (fetchSend (run World.empty reqs1) { u := some user, m := some m1 } t1).2
      reqs2).Counted :=
    counted_run reqs2 _ (counted_fetchSend _ _ _ hw1)
  obtain ⟨e1, k1⟩ := violation_in_counted _ user m1 t1 c1 hw1 hv1
  obtain ⟨e2, k2⟩ := violation_in_counted _ user m2 t2 c2 hw2 hv2
  rw [k1] at hS1
  rw [k2] at hS2
  simp only [Option.map_some', Option.some.injEq, JSVal.num.injEq] at hS1 hS2
  refine ⟨e1, e2, by omega, by omega, by omega⟩

/-- Witness of C11 (amended): the two violations of `twoBursts`, at 50000 and at 460000. -/
theorem suspensions_have_equal_length_witness :
    (fetchSend (run World.empty (twoBursts.take 5)) { u := some "A", m := some "m" } 50000).1 =
        Response.suspended (.num 6) ∧
      (fetchSend
        (run (fetchSend (run World.empty (twoBursts.take 5)) { u := some "A", m := some "m" }
          50000).2 ((twoBursts.drop 6).take 5))
        { u := some "A", m := some "m" } 460000).1 = Response.suspended (.num 6) ∧
      (410000 : Int) - (50000 : Nat) = 360000 ∧ (820000 : Int) - (460000 : Nat) = 360000 :=
  have h := suspensions_have_equal_length (twoBursts.take 5) ((twoBursts.drop 6).take 5)
    "A" "m" "m" 50000 460000 (.num 6) (.num 6) 410000 820000 (by decide) (by decide)
    (by decide) (by decide)
  ⟨by decide, by decide, h.2.2.1, h.2.2.2.1⟩

/-- C21: the invariant of the states of V3 reachable from the empty namespace by any
sequence of `/send` requests (non-decreasing readings of the clock are a special case).
Every stored username record has a numeric count between 1 and 6; and every request
answered with the violation response announces the count 6 and persists, for its username,
`suspendedUntil = now + 60000 * 6`, so that the suspension lasts exactly 360000 ms. -/
theorem reachable_records_are_bounded (reqs : List (Request × Nat)) :
    (∀ k d, (run World.empty reqs).kv k = some d →
        ∃ c : Int, d.count = .num c ∧ 1 ≤ c ∧ c ≤ 6) ∧
      (∀ req now c, (fetchSend (run World.empty reqs) req now).1 = Response.suspended c →
        c = .num 6 ∧
        ∃ user S, req.u = some user ∧
          ((fetchSend (run World.empty reqs) req now).2.kv (userKey user)).map
            UserData.suspendedUntil = some (.num S) ∧
          S = now + 60000 * 6 ∧ S - now = 360000) := by
  have hw : (run World.empty reqs).Counted := counted_run reqs _ counted_empty
  constructor
  · intro k d hk
    obtain ⟨c, l, s, hd, h1, h6, -⟩ := hw k d hk
    exact ⟨c, by rw [hd], h1, h6⟩
  · intro req now c hv
    rcases fetchSend_cases (run World.empty reqs) req now hw with
      ⟨-, h⟩ | ⟨user, d, hu, -, hj, hkv, h⟩
    · exact absurd hv (h c)
    · obtain ⟨hc, hd⟩ := h c hv
      refine ⟨hc, user, now + 60000 * 6, hu, ?_, rfl, by omega⟩
      rw [hkv, put_same, hj, hd]
      simp

/-- Witness of C21: after the twelve requests of `twoBursts` the record of `A` has the
count 6, and the twelfth request, the second violation, sets `suspendedUntil = 820000`,
360000 ms after its instant 460000. -/
theorem reachable_records_are_bounded_witness :
    (∃ c : Int, (JSVal.num 6) = .num c ∧ 1 ≤ c ∧ c ≤ 6) ∧
      (∃ user S, (some "A" : Option String) = some user ∧
        ((fetchSend (run World.empty (twoBursts.take 11)) { u := some "A", m := some "m" }
          460000).2.kv (userKey user)).map UserData.suspendedUntil = some (.num S) ∧
        S = (460000 : Nat) + 60000 * 6 ∧ S - (460000 : Nat) = 360000) :=
  ⟨(reachable_records_are_bounded twoBursts).1 (userKey "A")
      { count := .num 6, lastMessageTime := .num 460000, suspendedUntil := .num 820000 }
      (by decide),
   ((reachable_records_are_bounded (twoBursts.take 11)).2 { u := some "A", m := some "m" }
      460000 (.num 6) (by decide)).2⟩

end V3

end D1chat
